import Mathlib

/-!
# SiriDB package framing and tee pipe: a verification development

Shallow embedding of

* `include/qpack/qpack.h` (the container-marker constants and `qp_types_t`),
* `src/siri/net/pkg.c`    (package construction, duplication and sending),
* `src/siri/db/tee.c`     (the tee pipe connection state).

C objects live in an explicit heap (`world`); what the environment decides
(whether `malloc` succeeds, what `uv_write` returns, ...) is an input carried in
the state, so every function below is a total, executable state transformer.
`none` stands for undefined behaviour of the C program (an invalid pointer).
-/

namespace Siri

/-! ## qpack/qpack.h -/

def QP_SUGGESTED_SIZE : Nat := 65536

def QP_OPEN_ARRAY : Nat := 252
def QP_CLOSE_ARRAY : Nat := 253
def QP_OPEN_MAP : Nat := 254
def QP_CLOSE_MAP : Nat := 255

/-- The enumerators of `qp_types_t`, in declaration order. -/
inductive qp_types_t where
  | QP_ERR
  | QP_END
  | QP_RAW
  | QP_DOUBLE_N1
  | QP_DOUBLE_0
  | QP_DOUBLE_1
  | QP_RAW8
  | QP_RAW16
  | QP_RAW32
  | QP_RAW64
  | QP_INT8
  | QP_INT16
  | QP_INT32
  | QP_INT64
  | QP_DOUBLE
  | QP_ARRAY0
  | QP_ARRAY1
  | QP_ARRAY2
  | QP_ARRAY3
  | QP_ARRAY4
  | QP_ARRAY5
  | QP_MAP0
  | QP_MAP1
  | QP_MAP2
  | QP_MAP3
  | QP_MAP4
  | QP_MAP5
  | QP_TRUE
  | QP_FALSE
  | QP_NULL
  | QP_ARRAY_OPEN
  | QP_MAP_OPEN
  | QP_ARRAY_CLOSE
  | QP_MAP_CLOSE
  deriving DecidableEq, Repr

open qp_types_t in
/-- The body of the `qp_types_t` enum as written in qpack.h: every enumerator with
its explicit initialiser, when it has one. -/
def qp_types_decl : List (qp_types_t × Option Int) :=
  [ (QP_ERR, some (-1)),
    (QP_END, none),
    (QP_RAW, none),
    (QP_DOUBLE_N1, some 125),
    (QP_DOUBLE_0, none),
    (QP_DOUBLE_1, none),
    (QP_RAW8, some 228),
    (QP_RAW16, none),
    (QP_RAW32, none),
    (QP_RAW64, none),
    (QP_INT8, none),
    (QP_INT16, none),
    (QP_INT32, none),
    (QP_INT64, none),
    (QP_DOUBLE, none),
    (QP_ARRAY0, none),
    (QP_ARRAY1, none),
    (QP_ARRAY2, none),
    (QP_ARRAY3, none),
    (QP_ARRAY4, none),
    (QP_ARRAY5, none),
    (QP_MAP0, none),
    (QP_MAP1, none),
    (QP_MAP2, none),
    (QP_MAP3, none),
    (QP_MAP4, none),
    (QP_MAP5, none),
    (QP_TRUE, none),
    (QP_FALSE, none),
    (QP_NULL, none),
    (QP_ARRAY_OPEN, none),
    (QP_MAP_OPEN, none),
    (QP_ARRAY_CLOSE, none),
    (QP_MAP_CLOSE, none) ]

/-- The C rule for enumerator values: an initialiser fixes the value, an
enumerator without one is the previous value plus one (the first is 0). -/
def enum_assign {α : Type} : List (α × Option Int) → Int → List (α × Int)
  | [], _ => []
  | (a, some v) :: rest, _ => (a, v) :: enum_assign rest (v + 1)
  | (a, none) :: rest, next => (a, next) :: enum_assign rest (next + 1)

/-- The integer value of an enumerator of `qp_types_t`. -/
def qp_types_t.val (t : qp_types_t) : Int :=
  ((enum_assign qp_types_decl 0).lookup t).getD 0

/-! ## Objects of pkg.c and the heap they live in -/

/-- A package: the header fields followed by the bytes stored after the header
(the flexible array member `data[]`). -/
structure sirinet_pkg_t where
  pid : Nat
  len : Nat
  tp : Nat
  checkbit : Nat
  data : List Nat
  deriving DecidableEq, Repr

/-- The payload of a package: the `len` bytes that follow the header. -/
def sirinet_pkg_t.payload (p : sirinet_pkg_t) : List Nat := p.data.take p.len

/-- Modelled from the spec: `sizeof(sirinet_pkg_t)` (siri/net/pkg.h is not part
of the sources). The header is a 16-bit correlation id, a 32-bit payload
length, an 8-bit message type and an 8-bit integrity byte: 8 bytes. -/
def sizeof_sirinet_pkg_t : Nat := 8

/-- The packer handle of qpack.h. `buffer` is the address of its byte buffer. -/
structure qp_packer_t where
  len : Nat
  buffer_size : Nat
  alloc_size : Nat
  buffer : Nat
  deriving DecidableEq, Repr

/-- The record `pkg_send_t` that travels with a write request. -/
structure pkg_send_t where
  pkg : Nat
  client : Nat
  deriving DecidableEq, Repr

/-- The fields of `sirinet_stream_t` that pkg.c touches. -/
structure sirinet_stream_t where
  tp : Nat
  ref : Nat
  stream : Nat
  deriving DecidableEq, Repr

/-- The status values of `siri_api_header_t` that pkg.c names. -/
inductive siri_api_header_t where
  | E200_OK
  | E400_BAD_REQUEST
  | E401_UNAUTHORIZED
  | E403_FORBIDDEN
  | E500_INTERNAL_SERVER_ERROR
  | E503_SERVICE_UNAVAILABLE
  deriving DecidableEq, Repr

/-- One allocated object. A byte buffer that holds a package (also the buffer of
a packer made by `sirinet_packer_new`, whose first `sizeof(sirinet_pkg_t)` bytes
are the header) is kept as header fields plus the bytes behind the header. -/
inductive block where
  | pkg (p : sirinet_pkg_t)
  | bytes (b : List Nat)
  | packer (k : qp_packer_t)
  | uv_write (data : Nat)
  | pkg_send (d : pkg_send_t)
  | stream (s : sirinet_stream_t)
  deriving DecidableEq, Repr

/-- One call of `siri_api_send`: request, status, data and length. -/
structure api_call where
  request : Nat
  ht : siri_api_header_t
  data : List Nat
  len : Nat
  deriving DecidableEq, Repr

/-- Libuv's `uv_buf_t`: the address and the length of a buffer. -/
structure uv_buf_t where
  base : Nat
  len : Nat
  deriving DecidableEq, Repr

/-- The function `uv_buf_init(char* base, unsigned int len)` of libuv: the length
argument is an `unsigned int`, so the value passed is reduced to 32 bits. -/
def uv_buf_init (base len : Nat) : uv_buf_t := { base := base, len := len % 2 ^ 32 }

/-- One buffer accepted by `uv_write`: the request, the stream handle, the address
and the number of bytes of the buffer, and those bytes read as a package: the
header fields and the `size - sizeof(sirinet_pkg_t)` bytes behind the header.
The header is on the wire as a whole only when `size` is at least its size. -/
structure wire_write where
  req : Nat
  stream : Nat
  base : Nat
  size : Nat
  pkg : sirinet_pkg_t
  deriving DecidableEq, Repr

/-- The state of the program and of its environment. Address 0 is `NULL`.
`malloc_script` and `uv_write_script` are the answers the environment will give
to the coming calls (when a script is used up, `malloc` succeeds and `uv_write`
returns 0). -/
structure world where
  heap : List (Nat × block)
  frees : List Nat
  malloc_script : List Bool
  uv_write_script : List Int
  wire : List wire_write
  pending : List Nat
  api : List api_call
  signals : Nat
  log : List String
  deriving Repr

/-- The block at an address, if the address is allocated. -/
def world.find (w : world) (a : Nat) : Option block := w.heap.lookup a

def world.find_pkg (w : world) (a : Nat) : Option sirinet_pkg_t :=
  match w.find a with
  | some (block.pkg p) => some p
  | _ => none

def world.find_bytes (w : world) (a : Nat) : Option (List Nat) :=
  match w.find a with
  | some (block.bytes b) => some b
  | _ => none

def world.find_packer (w : world) (a : Nat) : Option qp_packer_t :=
  match w.find a with
  | some (block.packer k) => some k
  | _ => none

def world.find_uv_write (w : world) (a : Nat) : Option Nat :=
  match w.find a with
  | some (block.uv_write d) => some d
  | _ => none

def world.find_pkg_send (w : world) (a : Nat) : Option pkg_send_t :=
  match w.find a with
  | some (block.pkg_send d) => some d
  | _ => none

def world.find_stream (w : world) (a : Nat) : Option sirinet_stream_t :=
  match w.find a with
  | some (block.stream s) => some s
  | _ => none

/-- Overwrite the object at an address. -/
def world.store (w : world) (a : Nat) (b : block) : world :=
  { w with heap := (a, b) :: w.heap.filter (fun e => e.1 != a) }

/-- An address that is neither allocated nor was ever freed, and is not `NULL`. -/
def world.fresh (w : world) : Nat :=
  (w.heap.map Prod.fst ++ w.frees).foldr max 0 + 1

/-- The environment has answered one call of `malloc`. -/
def world.pop_malloc (w : world) : world :=
  { w with malloc_script := w.malloc_script.tail }

/-- The call `malloc(...)` for an object of the shape of `b` (its content stands for
the uninitialised memory). Returns the address, or 0 when the environment
refuses the allocation. -/
def malloc (w : world) (b : block) : Nat × world :=
  if w.malloc_script.head? = some false then
    (0, w.pop_malloc)
  else
    (w.fresh, w.pop_malloc.store w.fresh b)

/-- The call `free(a)`: the block is released and the call is recorded. `free(NULL)`
does nothing. -/
def free (w : world) (a : Nat) : world :=
  if a = 0 then w
  else { w with heap := w.heap.filter (fun e => e.1 != a), frees := a :: w.frees }

/-- The macro `ERR_ALLOC` of siri/err.h: raises the allocation signal. -/
def ERR_ALLOC (w : world) : world := { w with signals := w.signals + 1 }

def log_error (w : world) (msg : String) : world := { w with log := msg :: w.log }

/-! ## Declarations of headers that are not part of the sources

pkg.c names constants of siri/net/protocol.h and siri/net/stream.h and calls
libuv. Their values are inputs of the model. -/

/-- The constants pkg.c takes from headers outside the sources. -/
structure headers where
  CPROTO_RES_QUERY : Nat
  CPROTO_RES_INSERT : Nat
  CPROTO_RES_AUTH_SUCCESS : Nat
  CPROTO_RES_ACK : Nat
  CPROTO_RES_FILE : Nat
  CPROTO_ACK_SERVICE : Nat
  CPROTO_ACK_SERVICE_DATA : Nat
  CPROTO_ERR_QUERY : Nat
  CPROTO_ERR_INSERT : Nat
  CPROTO_ERR_SERVICE : Nat
  CPROTO_ERR_SERVICE_INVALID_REQUEST : Nat
  CPROTO_ERR_SERVER : Nat
  CPROTO_ERR_POOL : Nat
  CPROTO_ERR_USER_ACCESS : Nat
  CPROTO_ERR_NOT_AUTHENTICATED : Nat
  CPROTO_ERR_AUTH_UNKNOWN_DB : Nat
  CPROTO_ERR_AUTH_CREDENTIALS : Nat
  STREAM_API_CLIENT : Nat
  uv_strerror : Int → String

/-- The case labels of the switch in `pkg__tp_as_ht`, in source order. A C
compiler accepts the switch only when they are pairwise different. -/
def headers.case_labels (K : headers) : List Nat :=
  [ K.CPROTO_RES_QUERY, K.CPROTO_RES_INSERT, K.CPROTO_RES_AUTH_SUCCESS,
    K.CPROTO_RES_ACK, K.CPROTO_RES_FILE, K.CPROTO_ACK_SERVICE,
    K.CPROTO_ACK_SERVICE_DATA,
    K.CPROTO_ERR_QUERY, K.CPROTO_ERR_INSERT, K.CPROTO_ERR_SERVICE,
    K.CPROTO_ERR_SERVICE_INVALID_REQUEST,
    K.CPROTO_ERR_SERVER, K.CPROTO_ERR_POOL,
    K.CPROTO_ERR_USER_ACCESS, K.CPROTO_ERR_NOT_AUTHENTICATED,
    K.CPROTO_ERR_AUTH_UNKNOWN_DB, K.CPROTO_ERR_AUTH_CREDENTIALS ]

/-- Modelled from the spec: `sirinet_stream_incref` (siri/net/stream.h is not part
of the sources) takes a reference on the transport handle. -/
def sirinet_stream_incref (w : world) (client : Nat) : Option world := do
  let c ← w.find_stream client
  some (w.store client (block.stream { c with ref := c.ref + 1 }))

/-- Modelled from the spec: `sirinet_stream_decref` (siri/net/stream.h is not part
of the sources) releases a reference on the transport handle. -/
def sirinet_stream_decref (w : world) (client : Nat) : Option world := do
  let c ← w.find_stream client
  some (w.store client (block.stream { c with ref := c.ref - 1 }))

/-- The call `siri_api_send(request, ht, data, len)` (siri/api.c is not part of the
sources): the call is recorded. -/
def siri_api_send (w : world) (request : Nat) (ht : siri_api_header_t)
    (data : List Nat) (len : Nat) : world :=
  { w with api := { request := request, ht := ht, data := data, len := len } :: w.api }

/-- The environment has answered one call of `uv_write`. -/
def world.pop_uv_write (w : world) : world :=
  { w with uv_write_script := w.uv_write_script.tail }

/-- A write is accepted: its buffer is on the wire and its callback is pending. -/
def world.queue (w : world) (wr : wire_write) : world :=
  { w with wire := wr :: w.wire, pending := wr.req :: w.pending }

/-- The callback of a write request has run. -/
def world.done (w : world) (req : Nat) : world :=
  { w with pending := w.pending.erase req }

/-- The call `uv_write(req, stream, &wrbuf, 1, cb)` of libuv with the one buffer
`wrbuf`: the environment either accepts the write (returns 0, the `wrbuf.len`
bytes at `wrbuf.base` are on the wire and the callback is pending) or refuses
it. -/
def uv_write (w : world) (req stream : Nat) (wrbuf : uv_buf_t) : Option (Int × world) := do
  let p ← w.find_pkg wrbuf.base
  let rc := w.uv_write_script.headD 0
  if rc = 0 then
    some (0, w.pop_uv_write.queue
      { req := req, stream := stream, base := wrbuf.base, size := wrbuf.len,
        pkg := { p with data := p.data.take (wrbuf.len - sizeof_sirinet_pkg_t) } })
  else
    some (rc, w.pop_uv_write)

/-! ## qpack encoder, as far as pkg.c uses it -/

/-- Modelled from the spec: `qp_packer_new` (the qpack encoder is not part of the
sources) creates an encoder with an empty buffer of the given capacity; it
returns `NULL` when an allocation fails. -/
def qp_packer_new (w : world) (alloc_size : Nat) : Nat × world :=
  let r := malloc w (block.packer ⟨0, 0, 0, 0⟩)
  if r.1 = 0 then (0, r.2)
  else
    let b := malloc r.2 (block.pkg ⟨0, 0, 0, 0, []⟩)
    if b.1 = 0 then (0, free b.2 r.1)
    else
      (r.1, b.2.store r.1 (block.packer
        { len := 0, buffer_size := alloc_size, alloc_size := alloc_size, buffer := b.1 }))

/-- Modelled from the spec: the append step shared by the `qp_add_*` functions
(the qpack encoder is not part of the sources): the bytes are written at
offset `len` of the buffer, the logical length grows by their number, and the
capacity grows geometrically when it is too small. Growth that cannot be
allocated is fatal (spec, section 7) and is not represented. The first
`sizeof(sirinet_pkg_t)` bytes of the buffer are the package header, so the
model covers packers whose logical length is at least that size. -/
def qp_append (w : world) (packer : Nat) (bytes : List Nat) : Option world := do
  let k ← w.find_packer packer
  let p ← w.find_pkg k.buffer
  if k.len < sizeof_sirinet_pkg_t then none
  else
    let need := k.len + bytes.length
    let size := if k.buffer_size < need then max (2 * k.buffer_size) need else k.buffer_size
    let w := w.store k.buffer
      (block.pkg { p with data := p.data.take (k.len - sizeof_sirinet_pkg_t) ++ bytes })
    some (w.store packer (block.packer { k with len := need, buffer_size := size }))

/-- The `n` low bytes of `v`, least significant first. -/
def le_bytes : Nat → Nat → List Nat
  | 0, _ => []
  | n + 1, v => v % 256 :: le_bytes n (v / 256)

/-- Modelled from the spec: the tag of a raw byte sequence of length `len`
(section 4.1, rule 3 and the tag table): below 100 bytes the tag is
`128 + len`, otherwise tag 228, 229, 230 or 231 followed by the length in 1, 2,
4 or 8 bytes. -/
def qp_raw_tag (len : Nat) : List Nat :=
  if len < 100 then [128 + len]
  else if len < 2 ^ 8 then 228 :: le_bytes 1 len
  else if len < 2 ^ 16 then 229 :: le_bytes 2 len
  else if len < 2 ^ 32 then 230 :: le_bytes 4 len
  else 231 :: le_bytes 8 len

/-- Modelled from the spec: `qp_add_raw(packer, raw, len)` (the qpack encoder is
not part of the sources) appends the tag for `len` and the `len` bytes. -/
def qp_add_raw (w : world) (packer : Nat) (raw : List Nat) (len : Nat) : Option world :=
  qp_append w packer (qp_raw_tag len ++ raw.take len)

/-- Modelled from the spec: `qp_add_type(packer, tp)` (the qpack encoder is not
part of the sources) appends the one tag byte `tp`. -/
def qp_add_type (w : world) (packer : Nat) (tp : qp_types_t) : Option world :=
  qp_append w packer [(tp.val % 256).toNat]

/-! ## siri/net/pkg.c -/

/-- The function `sirinet_pkg_new(pid, len, tp, data)`; `data` is the address of a
byte buffer or 0. The bytes of the new block are not initialised by `malloc`;
they are shown as 0. Reading more bytes than the buffer holds is undefined. -/
def sirinet_pkg_new (w : world) (pid len tp data : Nat) : Option (Nat × world) :=
  let r := malloc w (block.pkg ⟨0, 0, 0, 0, List.replicate len 0⟩)
  let pkg := r.1
  let w := r.2
  if pkg = 0 then
    some (pkg, ERR_ALLOC w)
  else
    let p : sirinet_pkg_t :=
      { len := len, pid := pid, tp := tp, checkbit := 0, data := List.replicate len 0 }
    if data ≠ 0 then do
      let src ← w.find_bytes data
      if src.length < len then none
      else some (pkg, w.store pkg (block.pkg { p with data := src.take len }))
    else
      some (pkg, w.store pkg (block.pkg p))

/-- The function `sirinet_packer_new(alloc_size)`. The assertion is a precondition:
the model returns `none` when it is violated. -/
def sirinet_packer_new (w : world) (alloc_size : Nat) : Option (Nat × world) :=
  if alloc_size < sizeof_sirinet_pkg_t then none
  else
    let r := qp_packer_new w alloc_size
    let packer := r.1
    let w := r.2
    if packer = 0 then
      some (packer, ERR_ALLOC w)
    else do
      let k ← w.find_packer packer
      some (packer, w.store packer (block.packer { k with len := sizeof_sirinet_pkg_t }))

/-- The function `sirinet_packer2pkg(packer, pid, tp)`. The subtraction is done in
`size_t` (64 bits) and the result is stored in the 32-bit `len` field. -/
def sirinet_packer2pkg (w : world) (packer pid tp : Nat) : Option (Nat × world) := do
  let k ← w.find_packer packer
  let pkg := k.buffer
  let p ← w.find_pkg pkg
  let w := w.store pkg (block.pkg
    { p with
      pid := pid,
      tp := tp,
      len := (k.len + 2 ^ 64 - sizeof_sirinet_pkg_t) % 2 ^ 64 % 2 ^ 32,
      checkbit := 0 })
  let w := free w packer
  some (pkg, w)

/-- The bytes of the string literal "error_msg". -/
def error_msg_key : List Nat := [101, 114, 114, 111, 114, 95, 109, 115, 103]

/-- The function `sirinet_pkg_err(pid, len, tp, msg)`; `msg` is the content of the
message buffer. `len + 20` is computed in 32 bits before it is widened. -/
def sirinet_pkg_err (w : world) (pid len tp : Nat) (msg : List Nat) : Option (Nat × world) := do
  let r ← sirinet_packer_new w ((len + 20) % 2 ^ 32 + sizeof_sirinet_pkg_t)
  let packer := r.1
  let w := r.2
  if packer = 0 then
    some (0, w)
  else do
    let w ← qp_add_type w packer qp_types_t.QP_MAP_OPEN
    let w ← qp_add_raw w packer error_msg_key 9
    let w ← qp_add_raw w packer msg len
    sirinet_packer2pkg w packer pid tp

/-- The function `pkg__tp_as_ht(tp)`: the switch, its cases tried in source order. -/
def pkg__tp_as_ht (K : headers) (tp : Nat) : siri_api_header_t :=
  if tp = K.CPROTO_RES_QUERY ∨ tp = K.CPROTO_RES_INSERT ∨ tp = K.CPROTO_RES_AUTH_SUCCESS
      ∨ tp = K.CPROTO_RES_ACK ∨ tp = K.CPROTO_RES_FILE ∨ tp = K.CPROTO_ACK_SERVICE
      ∨ tp = K.CPROTO_ACK_SERVICE_DATA then
    siri_api_header_t.E200_OK
  else if tp = K.CPROTO_ERR_QUERY ∨ tp = K.CPROTO_ERR_INSERT ∨ tp = K.CPROTO_ERR_SERVICE
      ∨ tp = K.CPROTO_ERR_SERVICE_INVALID_REQUEST then
    siri_api_header_t.E400_BAD_REQUEST
  else if tp = K.CPROTO_ERR_SERVER ∨ tp = K.CPROTO_ERR_POOL then
    siri_api_header_t.E503_SERVICE_UNAVAILABLE
  else if tp = K.CPROTO_ERR_USER_ACCESS ∨ tp = K.CPROTO_ERR_NOT_AUTHENTICATED then
    siri_api_header_t.E403_FORBIDDEN
  else if tp = K.CPROTO_ERR_AUTH_UNKNOWN_DB ∨ tp = K.CPROTO_ERR_AUTH_CREDENTIALS then
    siri_api_header_t.E401_UNAUTHORIZED
  else
    siri_api_header_t.E500_INTERNAL_SERVER_ERROR

/-- The function `sirinet_pkg_send(client, pkg)`. The sum
`sizeof(sirinet_pkg_t) + pkg->len` is a `size_t` (64 bits) and is passed to
`uv_buf_init`, which takes an `unsigned int`. -/
def sirinet_pkg_send (K : headers) (w : world) (client pkg : Nat) : Option (Int × world) := do
  let c ← w.find_stream client
  let p ← w.find_pkg pkg
  if c.tp = K.STREAM_API_CLIENT then
    let w := siri_api_send w client (pkg__tp_as_ht K p.tp) p.data p.len
    let w := free w pkg
    some (0, w)
  else
    let r := malloc w (block.uv_write 0)
    let req := r.1
    let w := r.2
    if req = 0 then
      let w := ERR_ALLOC w
      let w := free w pkg
      some (-1, w)
    else
      let r := malloc w (block.pkg_send ⟨0, 0⟩)
      let data := r.1
      let w := r.2
      if data = 0 then
        let w := ERR_ALLOC w
        let w := free w pkg
        let w := free w req
        some (-1, w)
      else do
        let w ← sirinet_stream_incref w client
        let w := w.store data (block.pkg_send { client := client, pkg := pkg })
        let w := w.store req (block.uv_write data)
        let w := w.store pkg (block.pkg { p with checkbit := (p.tp ^^^ 255) % 256 })
        let wrbuf := uv_buf_init pkg ((sizeof_sirinet_pkg_t + p.len) % 2 ^ 64)
        let r ← uv_write w req c.stream wrbuf
        let w := r.2
        if r.1 ≠ 0 then do
          let d ← w.find_pkg_send data
          let w ← sirinet_stream_decref w d.client
          let w := free w pkg
          let w := free w req
          some (-1, w)
        else
          some (0, w)

/-- The function `sirinet_pkg_dup(pkg)`: `sizeof(sirinet_pkg_t) + pkg->len` bytes are
copied, that is the header and `len` bytes behind it. -/
def sirinet_pkg_dup (w : world) (pkg : Nat) : Option (Nat × world) := do
  let p ← w.find_pkg pkg
  let r := malloc w (block.pkg ⟨0, 0, 0, 0, List.replicate p.len 0⟩)
  let dup := r.1
  let w := r.2
  if dup ≠ 0 then
    some (dup, w.store dup (block.pkg { p with data := p.data.take p.len }))
  else
    some (dup, w)

/-- The callback `PKG_write_cb(req, status)`. -/
def PKG_write_cb (K : headers) (w : world) (req : Nat) (status : Int) : Option world := do
  let w := if status ≠ 0 then log_error w ("Socket write error: " ++ K.uv_strerror status) else w
  let data ← w.find_uv_write req
  let d ← w.find_pkg_send data
  let w ← sirinet_stream_decref w d.client
  let w := free w d.pkg
  let w := free w data
  let w := free w req
  some (w.done req)

/-! ## qpack decoder

The decoder is not part of the sources. It is modelled from the tag-byte table
of the spec (section 6) and the decoder contract (section 4.2). The values of
the four container markers are a parameter of the model, because qpack.h gives
them twice. -/

/-- Modelled from the spec: a decoded object (section 3): its kind and value.
Narrow integers are reported as one integer kind (section 4.2). -/
inductive qp_obj where
  | int (v : Int)
  | double_lit (v : Int)
  | double (ieee : List Nat)
  | raw (bytes : List Nat)
  | true_
  | false_
  | null
  | array (n : Nat)
  | map (n : Nat)
  | array_open
  | array_close
  | map_open
  | map_close
  | eos
  | err
  deriving DecidableEq, Repr

/-- The number written by little-endian bytes. -/
def le_value : List Nat → Nat
  | [] => 0
  | b :: rest => b + 256 * le_value rest

/-- The signed reading (two's complement) of an `n`-byte number. -/
def to_signed (n : Nat) (v : Nat) : Int :=
  if v < 2 ^ (8 * n - 1) then (v : Int) else (v : Int) - 2 ^ (8 * n)

/-- Read `n` raw bytes, or report an error when fewer are left. -/
def qp_take_raw (n : Nat) (rest : List Nat) : qp_obj × List Nat :=
  if rest.length < n then (qp_obj.err, rest)
  else (qp_obj.raw (rest.take n), rest.drop n)

/-- The four container markers. qpack.h declares them twice, as macros and as
enumerators of `qp_types_t`; the decoder below takes them as a parameter. -/
structure qp_markers where
  array_open : Nat
  array_close : Nat
  map_open : Nat
  map_close : Nat
  deriving DecidableEq, Repr

/-- The markers as the macros of qpack.h give them; these are the values of the
tag table of the spec. -/
def markers_of_macros : qp_markers :=
  { array_open := QP_OPEN_ARRAY, array_close := QP_CLOSE_ARRAY,
    map_open := QP_OPEN_MAP, map_close := QP_CLOSE_MAP }

/-- The markers as the enumerators of `qp_types_t` give them. -/
def markers_of_enum : qp_markers :=
  { array_open := qp_types_t.QP_ARRAY_OPEN.val.toNat,
    array_close := qp_types_t.QP_ARRAY_CLOSE.val.toNat,
    map_open := qp_types_t.QP_MAP_OPEN.val.toNat,
    map_close := qp_types_t.QP_MAP_CLOSE.val.toNat }

/-- Modelled from the spec: one decode step (`qp_next_object`, not part of the
sources) on the bytes that are left: the object and the bytes behind it. Tags
64..124 are read in the order of the table (64 is -61, 124 is -1). -/
def qp_next_object (M : qp_markers) : List Nat → qp_obj × List Nat
  | [] => (qp_obj.eos, [])
  | tag :: rest =>
    if tag < 64 then (qp_obj.int tag, rest)
    else if tag < 125 then (qp_obj.int ((tag : Int) - 125), rest)
    else if tag < 128 then (qp_obj.double_lit ((tag : Int) - 126), rest)
    else if tag < 228 then qp_take_raw (tag - 128) rest
    else if tag < 232 then
      let n := 2 ^ (tag - 228)
      if rest.length < n then (qp_obj.err, rest)
      else qp_take_raw (le_value (rest.take n)) (rest.drop n)
    else if tag < 236 then
      let n := 2 ^ (tag - 232)
      if rest.length < n then (qp_obj.err, rest)
      else (qp_obj.int (to_signed n (le_value (rest.take n))), rest.drop n)
    else if tag = 236 then
      if rest.length < 8 then (qp_obj.err, rest)
      else (qp_obj.double (rest.take 8), rest.drop 8)
    else if tag < 243 then (qp_obj.array (tag - 237), rest)
    else if tag < 249 then (qp_obj.map (tag - 243), rest)
    else if tag = 249 then (qp_obj.true_, rest)
    else if tag = 250 then (qp_obj.false_, rest)
    else if tag = 251 then (qp_obj.null, rest)
    else if tag = M.array_open then (qp_obj.array_open, rest)
    else if tag = M.array_close then (qp_obj.array_close, rest)
    else if tag = M.map_open then (qp_obj.map_open, rest)
    else if tag = M.map_close then (qp_obj.map_close, rest)
    else (qp_obj.err, rest)

/-- Decode step after step until end-of-stream or an error, at most `fuel` steps. -/
def qp_decode (M : qp_markers) : Nat → List Nat → List qp_obj
  | 0, _ => []
  | fuel + 1, bytes =>
    match qp_next_object M bytes with
    | (qp_obj.eos, _) => [qp_obj.eos]
    | (qp_obj.err, _) => [qp_obj.err]
    | (o, rest) => o :: qp_decode M fuel rest

/-- The whole sequence of objects a buffer decodes to. Every step but the last
consumes a byte, so `length + 1` steps reach the end. -/
def qp_unpack (M : qp_markers) (bytes : List Nat) : List qp_obj :=
  qp_decode M (bytes.length + 1) bytes

/-! ## siri/db/tee.c -/

/-- The constants tee.c takes from siri/db/tee.h, which is not part of the
sources, and libuv's `uv_strerror`. The flag constants fit the flag word. -/
structure tee_h where
  SIRIDB_TEE_FLAG : Nat
  SIRIDB_TEE_FLAG_INIT : Nat
  SIRIDB_TEE_FLAG_CONNECTING : Nat
  SIRIDB_TEE_FLAG_CONNECTED : Nat
  uv_strerror : Int → String

/-- The fields of `siridb_tee_t`; `none` is a `NULL` string. -/
structure siridb_tee_t where
  flags : Nat
  pipe_name_ : Option String
  err_msg_ : Option String
  deriving DecidableEq, Repr

/-- The callbacks tee.c hands to `uv_close`. -/
inductive tee_close_cb where
  | tee__close_cb
  | tee__runtime_init
  deriving DecidableEq, Repr

/-- The tee and its environment. The scripts are the answers of the coming calls
of `malloc` (also inside `strdup`), `asprintf`, `uv_pipe_init` and
`uv_read_start`; a script that is used up answers with success. `reqs` counts
the connect requests that are allocated, `connect_attempts` the calls of
`uv_pipe_connect`, `closing` lists the close callbacks that are scheduled. -/
structure tee_world where
  tee : siridb_tee_t
  malloc_script : List Bool
  asprintf_script : List Bool
  uv_pipe_init_script : List Int
  uv_read_start_script : List Int
  reqs : Nat
  connect_attempts : Nat
  closing : List tee_close_cb
  reading : Bool
  log : List String
  deriving DecidableEq, Repr

/-- The statement `flags |= F`. -/
def flag_set (flags F : Nat) : Nat := flags ||| F

/-- The statement `flags &= ~F`: the bits of `F` are cleared. -/
def flag_clear (flags F : Nat) : Nat := flags ^^^ (flags &&& F)

/-- The test `flags & F`. -/
def flag_test (flags F : Nat) : Bool := flags &&& F != 0

/-- One call of `malloc` in tee.c: whether it succeeds. -/
def tee_malloc (t : tee_world) : Bool × tee_world :=
  (t.malloc_script.head? != some false, { t with malloc_script := t.malloc_script.tail })

/-- The call `asprintf(&tee->err_msg_, ...)` with the formatted text `msg`: on
success `err_msg_` is the new string; on failure it is left as it was (in the
branch of `tee__on_connect` that does not reset it first, that is the string
just freed). Returns whether the call succeeded. -/
def tee_asprintf (t : tee_world) (msg : String) : Bool × tee_world :=
  if t.asprintf_script.head? = some false then
    (false, { t with asprintf_script := t.asprintf_script.tail })
  else
    (true, { t with asprintf_script := t.asprintf_script.tail,
                    tee := { t.tee with err_msg_ := some msg } })

/-- What printf prints for a `%s` argument (glibc prints "(null)" for `NULL`). -/
def fmt_s (s : Option String) : String := s.getD "(null)"

def tee_log (t : tee_world) (msg : String) : tee_world := { t with log := msg :: t.log }

/-- The function `siridb_tee_new()`; `none` is the `NULL` result. -/
def siridb_tee_new (K : tee_h) (malloc_ok : Bool) : Option siridb_tee_t :=
  if !malloc_ok then none
  else some { pipe_name_ := none, err_msg_ := none, flags := K.SIRIDB_TEE_FLAG }

/-- The function `siridb_tee_connect(tee)`. -/
def siridb_tee_connect (K : tee_h) (t : tee_world) : Int × tee_world :=
  if flag_test t.tee.flags K.SIRIDB_TEE_FLAG_CONNECTING then
    (0, t)
  else
    let t := { t with tee := { t.tee with
      flags := flag_set t.tee.flags K.SIRIDB_TEE_FLAG_CONNECTING } }
    let r := tee_malloc t
    let t := r.2
    if !r.1 then
      (-1, t)
    else
      let t := { t with reqs := t.reqs + 1 }
      let rc := t.uv_pipe_init_script.headD 0
      let t := { t with uv_pipe_init_script := t.uv_pipe_init_script.tail }
      if rc ≠ 0 then
        let t := { t with tee := { t.tee with
          flags := flag_clear t.tee.flags K.SIRIDB_TEE_FLAG_CONNECTING } }
        let t := { t with reqs := t.reqs - 1 }
        (-1, t)
      else
        let t := { t with tee := { t.tee with
          flags := flag_set t.tee.flags K.SIRIDB_TEE_FLAG_INIT } }
        let t := { t with connect_attempts := t.connect_attempts + 1 }
        (0, t)

/-- The function `tee_str(tee)`. -/
def tee_str (tee : siridb_tee_t) : String :=
  match tee.err_msg_ with
  | some e => e
  | none =>
    match tee.pipe_name_ with
    | some n => n
    | none => "disabled"

/-- The callback `tee__runtime_init(pipe)`. -/
def tee__runtime_init (K : tee_h) (t : tee_world) : tee_world :=
  let f := flag_clear t.tee.flags K.SIRIDB_TEE_FLAG_INIT
  let f := flag_clear f K.SIRIDB_TEE_FLAG_CONNECTING
  let f := flag_clear f K.SIRIDB_TEE_FLAG_CONNECTED
  let t := { t with tee := { t.tee with flags := f } }
  let r := siridb_tee_connect K t
  if r.1 ≠ 0 then tee_log r.2 "Could not connect to tee at runtime" else r.2

/-- The callback `tee__close_cb(pipe)`. -/
def tee__close_cb (K : tee_h) (t : tee_world) : tee_world :=
  let f := flag_clear t.tee.flags K.SIRIDB_TEE_FLAG_INIT
  let f := flag_clear f K.SIRIDB_TEE_FLAG_CONNECTING
  let f := flag_clear f K.SIRIDB_TEE_FLAG_CONNECTED
  { t with tee := { t.tee with flags := f } }

/-- The call `uv_close(handle, cb)`: the callback is scheduled. -/
def tee_uv_close (t : tee_world) (cb : tee_close_cb) : tee_world :=
  { t with closing := t.closing ++ [cb] }

/-- The function `siridb_tee_set_pipe_name(tee, pipe_name)`. -/
def siridb_tee_set_pipe_name (K : tee_h) (t : tee_world) (pipe_name : Option String) :
    Int × tee_world :=
  let t := { t with tee := { t.tee with err_msg_ := none } }
  match pipe_name with
  | none =>
    let t := { t with tee := { t.tee with pipe_name_ := none } }
    if flag_test t.tee.flags K.SIRIDB_TEE_FLAG_CONNECTED then
      (0, tee_uv_close t tee_close_cb.tee__close_cb)
    else
      (0, t)
  | some name =>
    let r := tee_malloc t
    let t := r.2
    if !r.1 then
      (-1, { t with tee := { t.tee with pipe_name_ := none } })
    else
      let t := { t with tee := { t.tee with pipe_name_ := some name } }
      if flag_test t.tee.flags K.SIRIDB_TEE_FLAG_INIT then
        (0, tee_uv_close t tee_close_cb.tee__runtime_init)
      else
        (0, tee__runtime_init K t)

/-- The callback `tee__on_connect(req, status)`. -/
def tee__on_connect (K : tee_h) (t : tee_world) (status : Int) : tee_world :=
  if status = 0 then
    let t := tee_log t ("Connection created to pipe: '" ++ fmt_s t.tee.pipe_name_ ++ "'")
    let rc := t.uv_read_start_script.headD 0
    let t := { t with uv_read_start_script := t.uv_read_start_script.tail }
    if rc ≠ 0 then
      let r := tee_asprintf t
        ("Cannot open pipe '" ++ fmt_s t.tee.pipe_name_ ++ "' for reading")
      let t := if r.1 then tee_log r.2 (fmt_s r.2.tee.err_msg_) else r.2
      let t := tee_uv_close t tee_close_cb.tee__close_cb
      { t with reqs := t.reqs - 1 }
    else
      let t := { t with reading := true }
      let t := { t with tee := { t.tee with
        flags := flag_set t.tee.flags K.SIRIDB_TEE_FLAG_CONNECTED } }
      { t with reqs := t.reqs - 1 }
  else
    let t := { t with tee := { t.tee with err_msg_ := none } }
    let r := tee_asprintf t
      ("Cannot connect to pipe '" ++ fmt_s t.tee.pipe_name_ ++ "' ("
        ++ K.uv_strerror status ++ ")")
    let t := if r.1 then tee_log r.2 (fmt_s r.2.tee.err_msg_) else r.2
    let t := tee_uv_close t tee_close_cb.tee__close_cb
    { t with reqs := t.reqs - 1 }

/-- The environment runs a scheduled close callback. -/
def tee_run_close (K : tee_h) (t : tee_world) : tee_world :=
  match t.closing with
  | [] => t
  | tee_close_cb.tee__close_cb :: rest => tee__close_cb K { t with closing := rest }
  | tee_close_cb.tee__runtime_init :: rest => tee__runtime_init K { t with closing := rest }

/-- Several appends in a row. -/
def qp_appends (w : world) (packer : Nat) : List (List Nat) → Option world
  | [] => some w
  | b :: rest => (qp_append w packer b).bind (fun w1 => qp_appends w1 packer rest)

/-- The state of a packer made by `sirinet_packer_new` after the bytes `bytes` have
been appended: its logical length is the header size plus their number, and
its buffer `buf` holds them behind the header. -/
def packer_holds (w : world) (packer buf : Nat) (bytes : List Nat) : Prop :=
  packer ≠ buf ∧ packer ≠ 0 ∧
  (∃ k, w.find packer = some (block.packer k) ∧ k.buffer = buf ∧
    k.len = sizeof_sirinet_pkg_t + bytes.length) ∧
  (∃ p, w.find buf = some (block.pkg p) ∧ p.data = bytes)

/-- The case labels of the five groups of the switch in `pkg__tp_as_ht`. -/
def labels_200 (K : headers) : List Nat :=
  [K.CPROTO_RES_QUERY, K.CPROTO_RES_INSERT, K.CPROTO_RES_AUTH_SUCCESS,
   K.CPROTO_RES_ACK, K.CPROTO_RES_FILE, K.CPROTO_ACK_SERVICE, K.CPROTO_ACK_SERVICE_DATA]

def labels_400 (K : headers) : List Nat :=
  [K.CPROTO_ERR_QUERY, K.CPROTO_ERR_INSERT, K.CPROTO_ERR_SERVICE,
   K.CPROTO_ERR_SERVICE_INVALID_REQUEST]

def labels_503 (K : headers) : List Nat := [K.CPROTO_ERR_SERVER, K.CPROTO_ERR_POOL]

def labels_403 (K : headers) : List Nat :=
  [K.CPROTO_ERR_USER_ACCESS, K.CPROTO_ERR_NOT_AUTHENTICATED]

def labels_401 (K : headers) : List Nat :=
  [K.CPROTO_ERR_AUTH_UNKNOWN_DB, K.CPROTO_ERR_AUTH_CREDENTIALS]

/-! ## Concrete inputs

The values below instantiate the theorems. The constants of the headers that
are not part of the sources are given sample values with pairwise different
case labels. -/

def headers_example : headers :=
  { CPROTO_RES_QUERY := 0
    CPROTO_RES_INSERT := 1
    CPROTO_RES_AUTH_SUCCESS := 2
    CPROTO_RES_ACK := 3
    CPROTO_RES_FILE := 5
    CPROTO_ACK_SERVICE := 32
    CPROTO_ACK_SERVICE_DATA := 33
    CPROTO_ERR_QUERY := 65
    CPROTO_ERR_INSERT := 66
    CPROTO_ERR_SERVICE := 96
    CPROTO_ERR_SERVICE_INVALID_REQUEST := 97
    CPROTO_ERR_SERVER := 67
    CPROTO_ERR_POOL := 68
    CPROTO_ERR_USER_ACCESS := 69
    CPROTO_ERR_NOT_AUTHENTICATED := 71
    CPROTO_ERR_AUTH_UNKNOWN_DB := 73
    CPROTO_ERR_AUTH_CREDENTIALS := 72
    STREAM_API_CLIENT := 7
    uv_strerror := fun _ => "broken pipe" }

/-- The bytes of "bad query". -/
def bad_query : List Nat := [98, 97, 100, 32, 113, 117, 101, 114, 121]

/-- A raw stream with one reference. -/
def stream_example : sirinet_stream_t := { tp := 0, ref := 1, stream := 77 }

/-- An API client. -/
def api_client_example : sirinet_stream_t := { tp := 7, ref := 1, stream := 78 }

/-- A query-error package that carries "bad query". -/
def pkg_example : sirinet_pkg_t :=
  { pid := 5, len := 9, tp := 65, checkbit := 0, data := bad_query }

/-- A world without any allocation, whose environment never refuses a call. -/
def world_empty : world :=
  { heap := [], frees := [], malloc_script := [], uv_write_script := [], wire := [],
    pending := [], api := [], signals := 0, log := [] }

/-- A raw stream at address 1, a byte buffer at 2, an API client at 3 and a
package at 4; the environment never refuses a call. -/
def world_example : world :=
  { world_empty with
    heap := [(1, block.stream stream_example), (2, block.bytes bad_query),
             (3, block.stream api_client_example), (4, block.pkg pkg_example)] }

/-- The same world, with an environment that refuses the next `uv_write`. -/
def world_write_refused : world := { world_example with uv_write_script := [-32] }

/-- The empty world, with an environment that refuses the next `malloc`. -/
def world_no_memory : world := { world_empty with malloc_script := [false] }

/-- A payload of 4 GiB. -/
def big_payload : List Nat := List.replicate (2 ^ 32) 0

/-- A package whose `len` field has the largest value of a `uint32_t`, with a
buffer that holds that many payload bytes. -/
def pkg_big : sirinet_pkg_t :=
  { pid := 5, len := 2 ^ 32 - 1, tp := 65, checkbit := 0, data := big_payload }

/-- A raw stream at address 1 and the package `pkg_big` at address 4; the
environment never refuses a call. -/
def world_big_pkg : world :=
  { world_empty with
    heap := [(1, block.stream stream_example), (4, block.pkg pkg_big)] }

/-- Sample values for the flag constants of tee.h. -/
def tee_h_example : tee_h :=
  { SIRIDB_TEE_FLAG := 128
    SIRIDB_TEE_FLAG_INIT := 1
    SIRIDB_TEE_FLAG_CONNECTING := 2
    SIRIDB_TEE_FLAG_CONNECTED := 4
    uv_strerror := fun _ => "no such file or directory" }

/-- A tee with a pipe name whose connect request is under way. -/
def tee_world_example : tee_world :=
  { tee := { flags := 128 + 1 + 2, pipe_name_ := some "/tmp/tee.sock", err_msg_ := none }
    malloc_script := []
    asprintf_script := []
    uv_pipe_init_script := []
    uv_read_start_script := []
    reqs := 1
    connect_attempts := 1
    closing := []
    reading := false
    log := [] }

/-- The same tee, with an environment in which the next `asprintf` fails. -/
def tee_world_asprintf_fails : tee_world :=
  { tee_world_example with asprintf_script := [false] }

/-- A tee that is not connecting, with an environment that refuses the next
`malloc`. -/
def tee_world_no_memory : tee_world :=
  { tee_world_example with
    tee := { flags := 128, pipe_name_ := some "/tmp/tee.sock", err_msg_ := none }
    malloc_script := [false]
    reqs := 0
    connect_attempts := 0 }

/-! # Theorems -/

/-! ## The heap: basic facts -/

theorem lookup_cons_eq (l : List (Nat × block)) (a q : Nat) (b : block) :
    List.lookup q ((a, b) :: l) = if q = a then some b else List.lookup q l := by
  by_cases hq : q = a
  · subst hq; simp [List.lookup_cons]
  · have : (q == a) = false := by simpa using hq
    simp [List.lookup_cons, this, hq]

theorem lookup_filter_ne (l : List (Nat × block)) (a q : Nat) :
    (l.filter (fun e => e.1 != a)).lookup q = if q = a then none else l.lookup q := by
  induction l with
  | nil => simp
  | cons e l ih =>
    obtain ⟨k, b⟩ := e
    by_cases hk : k = a
    · subst hk
      by_cases hq : q = k
      · subst hq; simp [List.filter_cons, ih]
      · simp [List.filter_cons, ih, lookup_cons_eq, hq]
    · by_cases hq : q = a
      · subst hq
        have hqk : ¬ q = k := fun e => hk e.symm
        simp [List.filter_cons, hk, ih, lookup_cons_eq, hqk]
      · simp [List.filter_cons, hk, ih, lookup_cons_eq, hq]

theorem find_store (w : world) (a q : Nat) (b : block) :
    (w.store a b).find q = if q = a then some b else w.find q := by
  unfold world.store world.find
  by_cases hq : q = a
  · subst hq; simp [lookup_cons_eq]
  · simp [lookup_cons_eq, hq, lookup_filter_ne]

theorem find_free (w : world) (a q : Nat) :
    (free w a).find q = if q = a ∧ a ≠ 0 then none else w.find q := by
  unfold free world.find
  by_cases ha : a = 0
  · simp [ha]
  · simp [ha, lookup_filter_ne]

theorem le_foldr_max (l : List Nat) (a : Nat) (h : a ∈ l) : a ≤ l.foldr max 0 := by
  induction l with
  | nil => simp at h
  | cons x l ih =>
    simp only [List.foldr_cons]
    rcases List.mem_cons.mp h with h | h
    · subst h; exact le_max_left _ _
    · exact le_trans (ih h) (le_max_right _ _)

theorem mem_keys_of_lookup (l : List (Nat × block)) (a : Nat) (b : block)
    (h : l.lookup a = some b) : a ∈ l.map Prod.fst := by
  induction l with
  | nil => simp at h
  | cons e l ih =>
    obtain ⟨k, c⟩ := e
    by_cases hk : a = k
    · subst hk; simp
    · simp [lookup_cons_eq, hk] at h
      simp [ih h]

theorem fresh_ne_zero (w : world) : w.fresh ≠ 0 := by
  unfold world.fresh; omega

theorem find_fresh (w : world) : w.find w.fresh = none := by
  cases h : w.find w.fresh with
  | none => rfl
  | some b =>
    exfalso
    have h1 := mem_keys_of_lookup _ _ _ h
    have h2 : w.fresh ∈ w.heap.map Prod.fst ++ w.frees := List.mem_append_left _ h1
    have h3 := le_foldr_max _ _ h2
    unfold world.fresh at h3
    omega

theorem fresh_not_freed (w : world) : w.fresh ∉ w.frees := by
  intro h
  have h2 : w.fresh ∈ w.heap.map Prod.fst ++ w.frees := List.mem_append_right _ h
  have h3 := le_foldr_max _ _ h2
  unfold world.fresh at h3
  omega

theorem ne_fresh_of_find (w : world) (a : Nat) (b : block) (h : w.find a = some b) :
    a ≠ w.fresh := by
  intro e; subst e; rw [find_fresh] at h; cases h

theorem find_pkg_iff (w : world) (a : Nat) (p : sirinet_pkg_t) :
    w.find_pkg a = some p ↔ w.find a = some (block.pkg p) := by
  unfold world.find_pkg
  cases h : w.find a with
  | none => simp
  | some b => cases b <;> simp

theorem find_stream_iff (w : world) (a : Nat) (c : sirinet_stream_t) :
    w.find_stream a = some c ↔ w.find a = some (block.stream c) := by
  unfold world.find_stream
  cases h : w.find a with
  | none => simp
  | some b => cases b <;> simp

theorem find_packer_iff (w : world) (a : Nat) (k : qp_packer_t) :
    w.find_packer a = some k ↔ w.find a = some (block.packer k) := by
  unfold world.find_packer
  cases h : w.find a with
  | none => simp
  | some b => cases b <;> simp

theorem find_bytes_iff (w : world) (a : Nat) (k : List Nat) :
    w.find_bytes a = some k ↔ w.find a = some (block.bytes k) := by
  unfold world.find_bytes
  cases h : w.find a with
  | none => simp
  | some b => cases b <;> simp

theorem find_uv_write_iff (w : world) (a : Nat) (k : Nat) :
    w.find_uv_write a = some k ↔ w.find a = some (block.uv_write k) := by
  unfold world.find_uv_write
  cases h : w.find a with
  | none => simp
  | some b => cases b <;> simp

theorem find_pkg_send_iff (w : world) (a : Nat) (k : pkg_send_t) :
    w.find_pkg_send a = some k ↔ w.find a = some (block.pkg_send k) := by
  unfold world.find_pkg_send
  cases h : w.find a with
  | none => simp
  | some b => cases b <;> simp

@[simp] theorem store_frees (w : world) (a : Nat) (b : block) :
    (w.store a b).frees = w.frees := rfl
@[simp] theorem store_malloc_script (w : world) (a : Nat) (b : block) :
    (w.store a b).malloc_script = w.malloc_script := rfl
@[simp] theorem store_uv_write_script (w : world) (a : Nat) (b : block) :
    (w.store a b).uv_write_script = w.uv_write_script := rfl
@[simp] theorem store_wire (w : world) (a : Nat) (b : block) :
    (w.store a b).wire = w.wire := rfl
@[simp] theorem store_pending (w : world) (a : Nat) (b : block) :
    (w.store a b).pending = w.pending := rfl
@[simp] theorem store_api (w : world) (a : Nat) (b : block) :
    (w.store a b).api = w.api := rfl
@[simp] theorem store_signals (w : world) (a : Nat) (b : block) :
    (w.store a b).signals = w.signals := rfl

@[simp] theorem pop_malloc_find (w : world) (q : Nat) : w.pop_malloc.find q = w.find q := rfl
@[simp] theorem pop_malloc_fresh (w : world) : w.pop_malloc.fresh = w.fresh := rfl
@[simp] theorem pop_malloc_frees (w : world) : w.pop_malloc.frees = w.frees := rfl
@[simp] theorem pop_malloc_script (w : world) :
    w.pop_malloc.malloc_script = w.malloc_script.tail := rfl
@[simp] theorem pop_malloc_uv_write_script (w : world) :
    w.pop_malloc.uv_write_script = w.uv_write_script := rfl
@[simp] theorem pop_malloc_wire (w : world) : w.pop_malloc.wire = w.wire := rfl
@[simp] theorem pop_malloc_pending (w : world) : w.pop_malloc.pending = w.pending := rfl
@[simp] theorem pop_malloc_api (w : world) : w.pop_malloc.api = w.api := rfl
@[simp] theorem pop_malloc_signals (w : world) : w.pop_malloc.signals = w.signals := rfl

@[simp] theorem free_malloc_script (w : world) (a : Nat) :
    (free w a).malloc_script = w.malloc_script := by unfold free; split <;> rfl
@[simp] theorem free_uv_write_script (w : world) (a : Nat) :
    (free w a).uv_write_script = w.uv_write_script := by unfold free; split <;> rfl
@[simp] theorem free_wire (w : world) (a : Nat) : (free w a).wire = w.wire := by
  unfold free; split <;> rfl
@[simp] theorem free_pending (w : world) (a : Nat) : (free w a).pending = w.pending := by
  unfold free; split <;> rfl
@[simp] theorem free_api (w : world) (a : Nat) : (free w a).api = w.api := by
  unfold free; split <;> rfl
@[simp] theorem free_signals (w : world) (a : Nat) : (free w a).signals = w.signals := by
  unfold free; split <;> rfl
theorem free_frees (w : world) (a : Nat) :
    (free w a).frees = if a = 0 then w.frees else a :: w.frees := by
  unfold free; split <;> rfl

@[simp] theorem err_alloc_find (w : world) (q : Nat) : (ERR_ALLOC w).find q = w.find q := rfl
@[simp] theorem err_alloc_frees (w : world) : (ERR_ALLOC w).frees = w.frees := rfl
@[simp] theorem err_alloc_wire (w : world) : (ERR_ALLOC w).wire = w.wire := rfl
@[simp] theorem err_alloc_pending (w : world) : (ERR_ALLOC w).pending = w.pending := rfl

@[simp] theorem pop_uv_write_find (w : world) (q : Nat) :
    w.pop_uv_write.find q = w.find q := rfl
@[simp] theorem pop_uv_write_frees (w : world) : w.pop_uv_write.frees = w.frees := rfl
@[simp] theorem pop_uv_write_wire (w : world) : w.pop_uv_write.wire = w.wire := rfl
@[simp] theorem pop_uv_write_pending (w : world) : w.pop_uv_write.pending = w.pending := rfl
@[simp] theorem queue_find (w : world) (wr : wire_write) (q : Nat) :
    (w.queue wr).find q = w.find q := rfl
@[simp] theorem queue_frees (w : world) (wr : wire_write) : (w.queue wr).frees = w.frees := rfl
@[simp] theorem queue_wire (w : world) (wr : wire_write) :
    (w.queue wr).wire = wr :: w.wire := rfl
@[simp] theorem queue_pending (w : world) (wr : wire_write) :
    (w.queue wr).pending = wr.req :: w.pending := rfl
@[simp] theorem done_find (w : world) (req q : Nat) : (w.done req).find q = w.find q := rfl
@[simp] theorem done_frees (w : world) (req : Nat) : (w.done req).frees = w.frees := rfl
@[simp] theorem done_wire (w : world) (req : Nat) : (w.done req).wire = w.wire := rfl
@[simp] theorem done_pending (w : world) (req : Nat) :
    (w.done req).pending = w.pending.erase req := rfl
@[simp] theorem log_error_find (w : world) (m : String) (q : Nat) :
    (log_error w m).find q = w.find q := rfl
@[simp] theorem log_error_frees (w : world) (m : String) : (log_error w m).frees = w.frees := rfl
@[simp] theorem log_error_wire (w : world) (m : String) : (log_error w m).wire = w.wire := rfl
@[simp] theorem log_error_pending (w : world) (m : String) :
    (log_error w m).pending = w.pending := rfl

@[simp] theorem uv_buf_init_base (base len : Nat) : (uv_buf_init base len).base = base := rfl
@[simp] theorem uv_buf_init_len (base len : Nat) :
    (uv_buf_init base len).len = len % 2 ^ 32 := rfl

/-- A successful `malloc` returns a new address that holds the requested block. -/
theorem malloc_ok (w : world) (b : block) (h : w.malloc_script.head? ≠ some false) :
    malloc w b = (w.fresh, w.pop_malloc.store w.fresh b) := by
  unfold malloc; simp [h]

theorem malloc_fail (w : world) (b : block) (h : w.malloc_script.head? = some false) :
    malloc w b = (0, w.pop_malloc) := by
  unfold malloc; simp [h]

/-- The address after a fresh one is different from it. -/
theorem fresh_store_fresh_ne (w : world) (b : block) :
    (w.store w.fresh b).fresh ≠ w.fresh := by
  intro e
  have h : (w.store w.fresh b).find w.fresh = some b := by simp [find_store]
  exact ne_fresh_of_find _ _ _ h e.symm

/-! ## pkg.c: the status table -/

theorem case_labels_eq (K : headers) :
    K.case_labels = labels_200 K ++ (labels_400 K ++ (labels_503 K ++
      (labels_403 K ++ labels_401 K))) := rfl

theorem tp_as_ht_eq (K : headers) (tp : Nat) :
    pkg__tp_as_ht K tp =
      if tp ∈ labels_200 K then siri_api_header_t.E200_OK
      else if tp ∈ labels_400 K then siri_api_header_t.E400_BAD_REQUEST
      else if tp ∈ labels_503 K then siri_api_header_t.E503_SERVICE_UNAVAILABLE
      else if tp ∈ labels_403 K then siri_api_header_t.E403_FORBIDDEN
      else if tp ∈ labels_401 K then siri_api_header_t.E401_UNAUTHORIZED
      else siri_api_header_t.E500_INTERNAL_SERVER_ERROR := by
  simp only [pkg__tp_as_ht, labels_200, labels_400, labels_503, labels_403, labels_401,
    List.mem_cons, List.mem_singleton, List.not_mem_nil, or_false]

theorem api_send_ok (K : headers) (tp : Nat) :
    ∀ (w : world) (client pkg : Nat) (c : sirinet_stream_t) (p : sirinet_pkg_t),
      w.find_stream client = some c → c.tp = K.STREAM_API_CLIENT →
      w.find_pkg pkg = some p → p.tp = tp →
      ∃ w', sirinet_pkg_send K w client pkg = some (0, w') ∧
        w'.api = { request := client, ht := pkg__tp_as_ht K tp,
                   data := p.data, len := p.len } :: w.api ∧
        w'.wire = w.wire ∧ w'.pending = w.pending := by
  intro w client pkg c p hc hapi hp htp
  refine ⟨free (siri_api_send w client (pkg__tp_as_ht K tp) p.data p.len) pkg, ?_, ?_, ?_, ?_⟩
  · simp [sirinet_pkg_send, hc, hp, hapi, htp]
  · unfold free siri_api_send; split <;> rfl
  · unfold free siri_api_send; split <;> rfl
  · unfold free siri_api_send; split <;> rfl

set_option maxRecDepth 100000 in
theorem xor_255 : ∀ t < 256, (t ^^^ 255) % 256 = t ^^^ 255 ∧ t ^^^ 255 = 255 - t := by
  decide

/-! ## pkg.c: packers -/

theorem find_free' (w : world) (a q : Nat) (h : q ≠ a) : (free w a).find q = w.find q := by
  rw [find_free]; simp [h]

theorem qp_packer_new_ok (w : world) (alloc_size : Nat)
    (hm1 : w.malloc_script.head? ≠ some false)
    (hm2 : w.malloc_script.tail.head? ≠ some false) :
    ∃ packer buf w1, qp_packer_new w alloc_size = (packer, w1) ∧
      packer ≠ 0 ∧ buf ≠ 0 ∧ packer ≠ buf ∧ w.find packer = none ∧ w.find buf = none ∧
      w1.find packer = some (block.packer
        { len := 0, buffer_size := alloc_size, alloc_size := alloc_size, buffer := buf }) ∧
      w1.find buf = some (block.pkg ⟨0, 0, 0, 0, []⟩) ∧
      (∀ a, a ≠ packer → a ≠ buf → w1.find a = w.find a) ∧
      w1.frees = w.frees := by
  set packer := w.fresh with hpk
  set wa := w.pop_malloc.store packer (block.packer ⟨0, 0, 0, 0⟩) with hwa
  have fa : ∀ a, wa.find a = if a = packer then some (block.packer ⟨0, 0, 0, 0⟩) else w.find a := by
    intro a; simp [hwa, find_store]
  have h0 : packer ≠ 0 := fresh_ne_zero w
  have hb0 : wa.fresh ≠ 0 := fresh_ne_zero wa
  have hne : packer ≠ wa.fresh := ne_fresh_of_find _ _ _ (by rw [fa, if_pos rfl])
  have hma : wa.malloc_script.head? ≠ some false := by simpa [hwa] using hm2
  have hnb : w.find wa.fresh = none := by
    have := find_fresh wa
    rw [fa, if_neg hne.symm] at this
    exact this
  refine ⟨packer, wa.fresh, (wa.pop_malloc.store wa.fresh (block.pkg ⟨0, 0, 0, 0, []⟩)).store
    packer (block.packer ⟨0, alloc_size, alloc_size, wa.fresh⟩),
    ?_, h0, hb0, hne, find_fresh w, hnb, ?_, ?_, ?_, ?_⟩
  · simp only [qp_packer_new, malloc_ok w _ hm1, ← hpk, ← hwa, h0, if_false,
      malloc_ok wa _ hma, hb0]
  · simp [find_store]
  · simp [find_store, hne.symm]
  · intro a ha hb; simp [find_store, ha, hb, fa]
  · simp [hwa]

theorem sirinet_packer_new_ok (w : world) (alloc_size : Nat)
    (ha : sizeof_sirinet_pkg_t ≤ alloc_size)
    (hm1 : w.malloc_script.head? ≠ some false)
    (hm2 : w.malloc_script.tail.head? ≠ some false) :
    ∃ packer buf w1, sirinet_packer_new w alloc_size = some (packer, w1) ∧
      buf ≠ 0 ∧ w.find packer = none ∧ w.find buf = none ∧
      packer_holds w1 packer buf [] ∧
      (∀ a, a ≠ packer → a ≠ buf → w1.find a = w.find a) ∧
      w1.frees = w.frees := by
  obtain ⟨packer, buf, w1, e, h0, hb0, hne, hnp, hnb, fp, fb, fr, hf⟩ :=
    qp_packer_new_ok w alloc_size hm1 hm2
  refine ⟨packer, buf,
    w1.store packer (block.packer ⟨sizeof_sirinet_pkg_t, alloc_size, alloc_size, buf⟩),
    ?_, hb0, hnp, hnb, ⟨hne, h0, ⟨⟨sizeof_sirinet_pkg_t, alloc_size, alloc_size, buf⟩, ?_, rfl, ?_⟩,
      ⟨⟨0, 0, 0, 0, []⟩, ?_, rfl⟩⟩, ?_, ?_⟩
  · simp only [sirinet_packer_new, Nat.not_lt.mpr ha, if_false, e, h0, world.find_packer, fp,
      Option.bind_eq_bind, Option.some_bind]
  · simp [find_store]
  · simp
  · simp [find_store, hne.symm, fb]
  · intro a ha hb; simp [find_store, ha, fr a ha hb]
  · simp [hf]

theorem qp_append_ok (w : world) (packer buf : Nat) (bytes b : List Nat)
    (h : packer_holds w packer buf bytes) :
    ∃ w2, qp_append w packer b = some w2 ∧ packer_holds w2 packer buf (bytes ++ b) ∧
      (∀ a, a ≠ packer → a ≠ buf → w2.find a = w.find a) ∧ w2.frees = w.frees := by
  obtain ⟨hne, h0, ⟨k, hk, hkb, hkl⟩, ⟨p, hp, hpd⟩⟩ := h
  have hlt : ¬ k.len < sizeof_sirinet_pkg_t := by omega
  have hoff : k.len - sizeof_sirinet_pkg_t = bytes.length := by omega
  refine ⟨(w.store buf (block.pkg
      ⟨p.pid, p.len, p.tp, p.checkbit, p.data.take (k.len - sizeof_sirinet_pkg_t) ++ b⟩)).store
      packer (block.packer ⟨k.len + b.length,
        if k.buffer_size < k.len + b.length then max (2 * k.buffer_size) (k.len + b.length)
        else k.buffer_size, k.alloc_size, k.buffer⟩),
    ?_, ⟨hne, h0, ⟨⟨k.len + b.length,
        if k.buffer_size < k.len + b.length then max (2 * k.buffer_size) (k.len + b.length)
        else k.buffer_size, k.alloc_size, k.buffer⟩, ?_, hkb, ?_⟩,
      ⟨⟨p.pid, p.len, p.tp, p.checkbit, bytes ++ b⟩, ?_, rfl⟩⟩, ?_, ?_⟩
  · simp only [qp_append, world.find_packer, world.find_pkg, hk, hkb, hp, hlt, if_false,
      Option.bind_eq_bind, Option.some_bind]
  · simp [find_store]
  · simp [hkl]; omega
  · simp [find_store, hne.symm, hkb, hoff, hpd]
  · intro a ha hb; simp [find_store, ha, hb, hkb]
  · simp

theorem qp_appends_ok (chunks : List (List Nat)) :
    ∀ (w : world) (packer buf : Nat) (bytes : List Nat),
      packer_holds w packer buf bytes →
      ∃ w2, qp_appends w packer chunks = some w2 ∧
        packer_holds w2 packer buf (bytes ++ chunks.flatten) ∧
        (∀ a, a ≠ packer → a ≠ buf → w2.find a = w.find a) ∧ w2.frees = w.frees := by
  induction chunks with
  | nil => intro w packer buf bytes h; exact ⟨w, rfl, by simpa using h, fun _ _ _ => rfl, rfl⟩
  | cons b rest ih =>
    intro w packer buf bytes h
    obtain ⟨w1, e1, h1, f1, r1⟩ := qp_append_ok w packer buf bytes b h
    obtain ⟨w2, e2, h2, f2, r2⟩ := ih w1 packer buf (bytes ++ b) h1
    refine ⟨w2, ?_, ?_, ?_, ?_⟩
    · simp [qp_appends, e1, e2]
    · simpa [List.append_assoc] using h2
    · intro a ha hb; rw [f2 a ha hb, f1 a ha hb]
    · rw [r2, r1]

theorem sirinet_packer2pkg_ok (w : world) (packer buf pid tp : Nat) (bytes : List Nat)
    (h : packer_holds w packer buf bytes) :
    ∃ w3, sirinet_packer2pkg w packer pid tp = some (buf, w3) ∧
      w3.find_pkg buf = some
        { pid := pid, len := bytes.length % 2 ^ 32, tp := tp, checkbit := 0, data := bytes } ∧
      w3.find packer = none ∧ w3.frees = packer :: w.frees ∧
      (∀ a, a ≠ packer → a ≠ buf → w3.find a = w.find a) := by
  obtain ⟨hne, h0, ⟨k, hk, hkb, hkl⟩, ⟨p, hp, hpd⟩⟩ := h
  have hl : (k.len + 2 ^ 64 - sizeof_sirinet_pkg_t) % 2 ^ 64 % 2 ^ 32 = bytes.length % 2 ^ 32 := by
    rw [hkl]
    have : sizeof_sirinet_pkg_t + bytes.length + 2 ^ 64 - sizeof_sirinet_pkg_t
        = bytes.length + 2 ^ 64 := by omega
    rw [this]
    omega
  refine ⟨free (w.store buf (block.pkg
      ⟨pid, (k.len + 2 ^ 64 - sizeof_sirinet_pkg_t) % 2 ^ 64 % 2 ^ 32, tp, 0, p.data⟩)) packer,
    ?_, ?_, ?_, ?_, ?_⟩
  · simp only [sirinet_packer2pkg, world.find_packer, world.find_pkg, hk, hkb, hp,
      Option.bind_eq_bind, Option.some_bind]
  · simp only [world.find_pkg, find_free, find_store, hne.symm, hl, hpd, if_true, false_and,
      if_false]
  · simp [find_free, h0]
  · simp [free_frees, h0]
  · intro a ha hb; simp [find_free, find_store, ha, hb]

/-- The whole life of a packer: creation, appends, conversion to a package. The
package is the packer's buffer; its `len` is the number of appended bytes
reduced to 32 bits. -/
theorem packer_chain (w : world) (alloc_size pid tp : Nat) (chunks : List (List Nat))
    (ha : sizeof_sirinet_pkg_t ≤ alloc_size)
    (hm1 : w.malloc_script.head? ≠ some false)
    (hm2 : w.malloc_script.tail.head? ≠ some false) :
    ∃ packer w1 w2 pkg w3 k p,
      sirinet_packer_new w alloc_size = some (packer, w1) ∧
      qp_appends w1 packer chunks = some w2 ∧
      w2.find_packer packer = some k ∧
      sizeof_sirinet_pkg_t ≤ k.len ∧
      k.len - sizeof_sirinet_pkg_t = chunks.flatten.length ∧
      sirinet_packer2pkg w2 packer pid tp = some (pkg, w3) ∧
      pkg = k.buffer ∧ pkg ≠ 0 ∧ w3.find packer = none ∧
      w3.find_pkg pkg = some p ∧
      p.pid = pid ∧ p.tp = tp ∧ p.checkbit = 0 ∧
      p.len = chunks.flatten.length % 2 ^ 32 ∧
      p.data = chunks.flatten := by
  obtain ⟨packer, buf, w1, e1, hb0, -, -, h1, -, -⟩ := sirinet_packer_new_ok w alloc_size ha hm1 hm2
  obtain ⟨w2, e2, h2, -, -⟩ := qp_appends_ok chunks w1 packer buf [] h1
  simp only [List.nil_append] at h2
  obtain ⟨w3, e3, hp, hn, -, -⟩ := sirinet_packer2pkg_ok w2 packer buf pid tp _ h2
  obtain ⟨-, -, ⟨k, hk, hkb, hkl⟩, -⟩ := h2
  refine ⟨packer, w1, w2, buf, w3, k, _, e1, e2, (find_packer_iff _ _ _).mpr hk, by omega,
    by omega, e3, hkb.symm, hb0, hn, hp, rfl, rfl, rfl, rfl, rfl⟩

/-- The result of `sirinet_pkg_err` when the packer can be allocated. -/
theorem pkg_err_ok (w : world) (pid len tp : Nat) (msg : List Nat)
    (hm1 : w.malloc_script.head? ≠ some false)
    (hm2 : w.malloc_script.tail.head? ≠ some false) :
    ∃ pkg w' p, sirinet_pkg_err w pid len tp msg = some (pkg, w') ∧ pkg ≠ 0 ∧
      w'.find_pkg pkg = some p ∧ p.pid = pid ∧ p.tp = tp ∧ p.checkbit = 0 ∧
      p.len = p.data.length % 2 ^ 32 ∧
      p.data = (qp_types_t.QP_MAP_OPEN.val % 256).toNat ::
        (qp_raw_tag 9 ++ error_msg_key ++ (qp_raw_tag len ++ msg.take len)) := by
  have ha : sizeof_sirinet_pkg_t ≤ (len + 20) % 2 ^ 32 + sizeof_sirinet_pkg_t := by omega
  obtain ⟨packer, buf, w1, e1, hb0, -, -, h1, -, -⟩ := sirinet_packer_new_ok w _ ha hm1 hm2
  obtain ⟨wa, ea, ha1, -, -⟩ :=
    qp_append_ok w1 packer buf [] [(qp_types_t.QP_MAP_OPEN.val % 256).toNat] h1
  obtain ⟨wb, eb, hb1, -, -⟩ :=
    qp_append_ok wa packer buf _ (qp_raw_tag 9 ++ error_msg_key.take 9) ha1
  obtain ⟨wc, ec, hc1, -, -⟩ :=
    qp_append_ok wb packer buf _ (qp_raw_tag len ++ msg.take len) hb1
  obtain ⟨w3, e3, hp, -, -, -⟩ := sirinet_packer2pkg_ok wc packer buf pid tp _ hc1
  have hp0 : packer ≠ 0 := h1.2.1
  have hk : List.take 9 error_msg_key = error_msg_key := rfl
  refine ⟨buf, w3, _, ?_, hb0, hp, rfl, rfl, rfl, rfl, ?_⟩
  · simp only [sirinet_pkg_err, e1, Option.bind_eq_bind, Option.some_bind, hp0, if_false,
      qp_add_type, qp_add_raw, ea, eb, ec, e3]
  · simp [hk]

/-- The result of `sirinet_pkg_err` when the packer cannot be allocated, that is
when `malloc` is refused for the packer or for its buffer: the result is
`NULL`, the allocation signal is raised once and no block is left behind. -/
theorem pkg_err_fail (w : world) (pid len tp : Nat) (msg : List Nat)
    (h : w.malloc_script.head? = some false ∨ w.malloc_script.tail.head? = some false) :
    ∃ w', sirinet_pkg_err w pid len tp msg = some (0, w') ∧
      (∀ q, w'.find q = w.find q) ∧ w'.signals = w.signals + 1 := by
  have ha : ¬ (len + 20) % 2 ^ 32 + sizeof_sirinet_pkg_t < sizeof_sirinet_pkg_t := by omega
  by_cases h1 : w.malloc_script.head? = some false
  · refine ⟨ERR_ALLOC w.pop_malloc, ?_, fun q => rfl, rfl⟩
    simp only [sirinet_pkg_err, sirinet_packer_new, ha, if_false, qp_packer_new,
      malloc_fail w _ h1, if_true, Option.bind_eq_bind, Option.some_bind]
  · have h2 : w.malloc_script.tail.head? = some false := h.resolve_left h1
    set packer := w.fresh with hpk
    set wa := w.pop_malloc.store packer (block.packer ⟨0, 0, 0, 0⟩) with hwa
    have h0 : packer ≠ 0 := fresh_ne_zero w
    have hma : wa.malloc_script.head? = some false := by simpa [hwa] using h2
    refine ⟨ERR_ALLOC (free wa.pop_malloc packer), ?_, ?_, ?_⟩
    · simp only [sirinet_pkg_err, sirinet_packer_new, ha, if_false, qp_packer_new,
        malloc_ok w _ h1, ← hpk, ← hwa, h0, malloc_fail wa _ hma, if_true,
        Option.bind_eq_bind, Option.some_bind]
    · intro q
      rw [err_alloc_find, find_free, pop_malloc_find]
      by_cases hq : q = packer
      · rw [if_pos ⟨hq, h0⟩, hq, hpk, find_fresh]
      · rw [if_neg (fun hh => hq hh.1), hwa, find_store, if_neg hq, pop_malloc_find]
    · show (free wa.pop_malloc packer).signals + 1 = w.signals + 1
      rw [free_signals, pop_malloc_signals, hwa, store_signals, pop_malloc_signals]

/-! ## qpack: raw values decode to what was encoded -/

theorem take_raw_append (bs rest : List Nat) :
    qp_take_raw bs.length (bs ++ rest) = (qp_obj.raw bs, rest) := by
  simp [qp_take_raw]

theorem le_value_le_bytes_1 (n : Nat) (h : n < 2 ^ 8) : le_value (le_bytes 1 n) = n := by
  simp only [le_bytes, le_value]; omega

theorem le_value_le_bytes_2 (n : Nat) (h : n < 2 ^ 16) : le_value (le_bytes 2 n) = n := by
  simp only [le_bytes, le_value]; omega

theorem le_value_le_bytes_4 (n : Nat) (h : n < 2 ^ 32) : le_value (le_bytes 4 n) = n := by
  simp only [le_bytes, le_value]; omega

theorem le_value_le_bytes_8 (n : Nat) (h : n < 2 ^ 64) : le_value (le_bytes 8 n) = n := by
  simp only [le_bytes, le_value]; omega

theorem le_bytes_length (k n : Nat) : (le_bytes k n).length = k := by
  induction k generalizing n with
  | zero => rfl
  | succ k ih => simp [le_bytes, ih]

/-- One decode step on an encoded raw value gives the bytes back and stops right
behind them, whatever the container markers are. -/
theorem next_object_raw (M : qp_markers) (bs rest : List Nat) (h : bs.length < 2 ^ 64) :
    qp_next_object M (qp_raw_tag bs.length ++ bs ++ rest) = (qp_obj.raw bs, rest) := by
  by_cases h1 : bs.length < 100
  · have ht : qp_raw_tag bs.length = [128 + bs.length] := by simp [qp_raw_tag, h1]
    have e : 128 + bs.length - 128 = bs.length := by omega
    have a1 : ¬ 128 + bs.length < 64 := by omega
    have a2 : ¬ 128 + bs.length < 125 := by omega
    have a3 : ¬ 128 + bs.length < 128 := by omega
    have a4 : 128 + bs.length < 228 := by omega
    rw [ht]
    simp only [List.singleton_append, List.cons_append, List.nil_append, qp_next_object, a1, a2,
      a3, a4, if_false, if_true, e, take_raw_append]
  · by_cases h2 : bs.length < 256
    · have ht : qp_raw_tag bs.length = [228, bs.length % 256] := by
        simp [qp_raw_tag, le_bytes, h1, h2]
      have hv : le_value [bs.length % 256] = bs.length := by
        simp only [le_value]; omega
      have t1 : List.take 1 (bs.length % 256 :: (bs ++ rest)) = [bs.length % 256] := rfl
      rw [ht]
      simp [qp_next_object, t1, hv, take_raw_append]
    · by_cases h3 : bs.length < 65536
      · have ht : qp_raw_tag bs.length = [229, bs.length % 256, bs.length / 256 % 256] := by
          simp [qp_raw_tag, le_bytes, h1, h2, h3]
        have hv : le_value [bs.length % 256, bs.length / 256 % 256] = bs.length := by
          simp only [le_value]; omega
        rw [ht]
        simp [qp_next_object, List.take_succ_cons, hv, take_raw_append]
      · by_cases h4 : bs.length < 4294967296
        · have ht : qp_raw_tag bs.length = 230 :: le_bytes 4 bs.length := by
            simp [qp_raw_tag, h1, h2, h3, h4]
          have hv := le_value_le_bytes_4 bs.length (by omega)
          simp only [le_bytes] at hv ht
          rw [ht]
          simp [qp_next_object, List.take_succ_cons, hv, take_raw_append]
        · have ht : qp_raw_tag bs.length = 231 :: le_bytes 8 bs.length := by
            simp [qp_raw_tag, h1, h2, h3, h4]
          have hv := le_value_le_bytes_8 bs.length h
          simp only [le_bytes] at hv ht
          rw [ht]
          simp [qp_next_object, List.take_succ_cons, hv, take_raw_append]

theorem qp_raw_tag_length_pos (n : Nat) : 1 ≤ (qp_raw_tag n).length := by
  unfold qp_raw_tag; split_ifs <;> simp

/-- Two encoded raw values, one after the other, decode to the two values and
then end-of-stream. -/
theorem unpack_two_raws (M : qp_markers) (k v : List Nat)
    (hk : k.length < 2 ^ 64) (hv : v.length < 2 ^ 64) :
    qp_unpack M (qp_raw_tag k.length ++ k ++ (qp_raw_tag v.length ++ v)) =
      [qp_obj.raw k, qp_obj.raw v, qp_obj.eos] := by
  have e1 := next_object_raw M k (qp_raw_tag v.length ++ v) hk
  have e2 := next_object_raw M v [] hv
  simp only [List.append_nil] at e2
  have hl : ∃ f, (qp_raw_tag k.length ++ k ++ (qp_raw_tag v.length ++ v)).length + 1 = f + 3 := by
    have h1 := qp_raw_tag_length_pos k.length
    have h2 := qp_raw_tag_length_pos v.length
    refine ⟨(qp_raw_tag k.length ++ k ++ (qp_raw_tag v.length ++ v)).length - 2, ?_⟩
    simp only [List.length_append]
    omega
  obtain ⟨f, hf⟩ := hl
  have e3 : qp_next_object M [] = (qp_obj.eos, []) := rfl
  unfold qp_unpack
  rw [hf]
  simp only [qp_decode, e1, e2, e3]

/-- A decode step that yields a value is followed by the decoding of the rest. -/
theorem qp_decode_step (M : qp_markers) (fuel : Nat) (bytes rest : List Nat) (o : qp_obj)
    (h : qp_next_object M bytes = (o, rest)) (h1 : o ≠ qp_obj.eos) (h2 : o ≠ qp_obj.err) :
    qp_decode M (fuel + 1) bytes = o :: qp_decode M fuel rest := by
  conv_lhs => rw [qp_decode]
  rw [h]
  cases o <;> simp_all

/-- The open-map marker in front of two encoded raw values: the buffer decodes to
the open-map object, the two values and end-of-stream. -/
theorem unpack_open_map_two_raws (M : qp_markers) (k v : List Nat)
    (h251 : 251 < M.map_open) (h1 : M.map_open ≠ M.array_open)
    (h2 : M.map_open ≠ M.array_close)
    (hk : k.length < 2 ^ 64) (hv : v.length < 2 ^ 64) :
    qp_unpack M (M.map_open :: (qp_raw_tag k.length ++ k ++ (qp_raw_tag v.length ++ v))) =
      [qp_obj.map_open, qp_obj.raw k, qp_obj.raw v, qp_obj.eos] := by
  have e0 : qp_next_object M
      (M.map_open :: (qp_raw_tag k.length ++ k ++ (qp_raw_tag v.length ++ v))) =
      (qp_obj.map_open, qp_raw_tag k.length ++ k ++ (qp_raw_tag v.length ++ v)) := by
    have a1 : ¬ M.map_open < 64 := by omega
    have a2 : ¬ M.map_open < 125 := by omega
    have a3 : ¬ M.map_open < 128 := by omega
    have a4 : ¬ M.map_open < 228 := by omega
    have a5 : ¬ M.map_open < 232 := by omega
    have a6 : ¬ M.map_open < 236 := by omega
    have a7 : ¬ M.map_open = 236 := by omega
    have a8 : ¬ M.map_open < 243 := by omega
    have a9 : ¬ M.map_open < 249 := by omega
    have b1 : ¬ M.map_open = 249 := by omega
    have b2 : ¬ M.map_open = 250 := by omega
    have b3 : ¬ M.map_open = 251 := by omega
    simp only [qp_next_object, a1, a2, a3, a4, a5, a6, a7, a8, a9, b1, b2, b3, h1, h2,
      if_false, if_true]
  have hu := unpack_two_raws M k v hk hv
  unfold qp_unpack at hu ⊢
  rw [List.length_cons, qp_decode_step M _ _ _ _ e0 (by decide) (by decide), hu]

/-! ## pkg.c: duplication -/

/-- A successful `sirinet_pkg_dup`: the heap after the call is the heap before it
with one new block, the copy of the header and of the `len` payload bytes. -/
theorem pkg_dup_ok (w : world) (pkg : Nat) (p : sirinet_pkg_t)
    (hp : w.find_pkg pkg = some p) (hm : w.malloc_script.head? ≠ some false) :
    ∃ dup w', sirinet_pkg_dup w pkg = some (dup, w') ∧
      dup ≠ 0 ∧ dup ≠ pkg ∧ w.find dup = none ∧
      (∀ a, w'.find a =
        if a = dup then some (block.pkg { p with data := p.data.take p.len }) else w.find a) ∧
      w'.malloc_script = w.malloc_script.tail := by
  have hp' := (find_pkg_iff _ _ _).mp hp
  have h1 : pkg ≠ w.fresh := ne_fresh_of_find _ _ _ hp'
  have h0 : w.fresh ≠ 0 := fresh_ne_zero w
  refine ⟨w.fresh, (w.pop_malloc.store w.fresh
    (block.pkg ⟨0, 0, 0, 0, List.replicate p.len 0⟩)).store w.fresh
    (block.pkg { p with data := p.data.take p.len }), ?_, h0, h1.symm, find_fresh w, ?_, rfl⟩
  · simp [sirinet_pkg_dup, hp, malloc_ok w _ hm, h0]
  · intro a; by_cases h : a = w.fresh <;> simp [find_store, h]

/-! ## tee.c: the flag word -/

theorem flag_clear_test (f F : Nat) : flag_clear f F &&& F = 0 := by
  apply Nat.eq_of_testBit_eq
  intro i
  simp only [flag_clear, Nat.testBit_and, Nat.testBit_xor, Nat.zero_testBit]
  cases f.testBit i <;> cases F.testBit i <;> rfl

theorem flag_clear_keeps_clear (f F G : Nat) (h : f &&& F = 0) : flag_clear f G &&& F = 0 := by
  apply Nat.eq_of_testBit_eq
  intro i
  have hi := congrArg (fun n => n.testBit i) h
  simp only [Nat.testBit_and, Nat.zero_testBit] at hi
  simp only [flag_clear, Nat.testBit_and, Nat.testBit_xor, Nat.zero_testBit]
  revert hi
  cases f.testBit i <;> cases F.testBit i <;> cases G.testBit i <;> simp

theorem flag_clear_set (f F : Nat) (h : f &&& F = 0) : flag_clear (flag_set f F) F = f := by
  apply Nat.eq_of_testBit_eq
  intro i
  have hi := congrArg (fun n => n.testBit i) h
  simp only [Nat.testBit_and, Nat.zero_testBit] at hi
  simp only [flag_clear, flag_set, Nat.testBit_and, Nat.testBit_xor, Nat.testBit_or]
  revert hi
  cases f.testBit i <;> cases F.testBit i <;> simp

theorem flag_set_test (f F : Nat) (hF : F ≠ 0) : flag_set f F &&& F ≠ 0 := by
  have e : flag_set f F &&& F = F := by
    apply Nat.eq_of_testBit_eq
    intro i
    simp only [flag_set, Nat.testBit_and, Nat.testBit_or]
    cases f.testBit i <;> cases F.testBit i <;> rfl
  rw [e]; exact hF

theorem flag_set_ne (f F : Nat) (hF : F ≠ 0) (h : f &&& F = 0) : flag_set f F ≠ f := by
  intro e
  have := flag_set_test f F hF
  rw [e] at this
  exact this h

theorem flag_test_false_iff (f F : Nat) : flag_test f F = false ↔ f &&& F = 0 := by
  simp [flag_test]

theorem flag_test_true_iff (f F : Nat) : flag_test f F = true ↔ f &&& F ≠ 0 := by
  simp [flag_test]

/-- After `tee__close_cb` the three state flags are clear. -/
theorem close_cb_flags (K : tee_h) (t : tee_world) :
    flag_test (tee__close_cb K t).tee.flags K.SIRIDB_TEE_FLAG_INIT = false ∧
    flag_test (tee__close_cb K t).tee.flags K.SIRIDB_TEE_FLAG_CONNECTING = false ∧
    flag_test (tee__close_cb K t).tee.flags K.SIRIDB_TEE_FLAG_CONNECTED = false := by
  simp only [flag_test_false_iff, tee__close_cb]
  refine ⟨?_, ?_, ?_⟩
  · exact flag_clear_keeps_clear _ _ _ (flag_clear_keeps_clear _ _ _ (flag_clear_test _ _))
  · exact flag_clear_keeps_clear _ _ _ (flag_clear_test _ _)
  · exact flag_clear_test _ _

/-- When `uv_pipe_init` fails, `siridb_tee_connect` returns -1 with the flag word
as it was before the call. -/
theorem tee_connect_pipe_init_failure (K : tee_h) (t : tee_world)
    (hclear : flag_test t.tee.flags K.SIRIDB_TEE_FLAG_CONNECTING = false)
    (hm : t.malloc_script.head? ≠ some false)
    (hinit : t.uv_pipe_init_script.headD 0 ≠ 0) :
    (siridb_tee_connect K t).1 = -1 ∧
    (siridb_tee_connect K t).2.tee.flags = t.tee.flags ∧
    (siridb_tee_connect K t).2.reqs = t.reqs ∧
    (siridb_tee_connect K t).2.connect_attempts = t.connect_attempts := by
  have h0 := (flag_test_false_iff _ _).mp hclear
  have hinit2 : ¬ t.uv_pipe_init_script.head?.getD 0 = 0 := by
    simpa [List.headD_eq_head?_getD] using hinit
  simp [siridb_tee_connect, hclear, tee_malloc, hm, hinit2, flag_clear_set _ _ h0]

/-! ## Claims about sending (pkg.c) -/

theorem big_payload_length : big_payload.length = 2 ^ 32 := List.length_replicate _ _

/-- A queued write of `sirinet_pkg_send` on a raw stream: the call returns 0, the
package in memory has its checkbit set, and the buffer handed to `uv_write` is
the package with the length `sizeof(sirinet_pkg_t) + len`, reduced to the
`unsigned int` that `uv_buf_init` takes. -/
theorem send_queued (K : headers) (w : world) (client pkg : Nat)
    (c : sirinet_stream_t) (p : sirinet_pkg_t)
    (hc : w.find_stream client = some c) (hp : w.find_pkg pkg = some p)
    (hraw : c.tp ≠ K.STREAM_API_CLIENT)
    (hm1 : w.malloc_script.head? ≠ some false)
    (hm2 : w.malloc_script.tail.head? ≠ some false)
    (hw : w.uv_write_script.headD 0 = 0) :
    ∃ w' wr, sirinet_pkg_send K w client pkg = some (0, w') ∧
      w'.wire = wr :: w.wire ∧
      wr.base = pkg ∧ wr.stream = c.stream ∧
      wr.size = (sizeof_sirinet_pkg_t + p.len) % 2 ^ 64 % 2 ^ 32 ∧
      wr.pkg.pid = p.pid ∧ wr.pkg.len = p.len ∧ wr.pkg.tp = p.tp ∧
      wr.pkg.checkbit = (p.tp ^^^ 255) % 256 ∧
      wr.pkg.data = p.data.take (wr.size - sizeof_sirinet_pkg_t) ∧
      ∃ q, w'.find_pkg pkg = some q ∧ q.pid = p.pid ∧ q.len = p.len ∧ q.tp = p.tp ∧
        q.checkbit = (p.tp ^^^ 255) % 256 ∧ q.data = p.data := by
  have hc' := (find_stream_iff _ _ _).mp hc
  have hp' := (find_pkg_iff _ _ _).mp hp
  have hne : client ≠ pkg := by intro e; subst e; rw [hc'] at hp'; cases hp'
  have h1 : client ≠ w.fresh := ne_fresh_of_find _ _ _ hc'
  have h2 : pkg ≠ w.fresh := ne_fresh_of_find _ _ _ hp'
  set req := w.fresh with hreq
  set w1 := w.pop_malloc.store req (block.uv_write 0) with hw1
  have f1 : ∀ q, w1.find q = if q = req then some (block.uv_write 0) else w.find q := by
    intro q; simp [hw1, find_store]
  have h3 : client ≠ w1.fresh := ne_fresh_of_find _ _ _ (by rw [f1, if_neg h1]; exact hc')
  have h4 : pkg ≠ w1.fresh := ne_fresh_of_find _ _ _ (by rw [f1, if_neg h2]; exact hp')
  have h5 : req ≠ w1.fresh := ne_fresh_of_find _ _ _ (by rw [f1, if_pos rfl])
  simp only [sirinet_pkg_send, hc, hp, hraw, Option.bind_eq_bind, Option.some_bind,
    if_false, ↓reduceIte]
  rw [malloc_ok w _ hm1]
  simp only [fresh_ne_zero, ↓reduceIte, ← hreq, ← hw1]
  rw [malloc_ok _ _ (by simpa [hw1] using hm2)]
  simp only [fresh_ne_zero, ↓reduceIte]
  have hr0 : req ≠ 0 := fresh_ne_zero w
  have hd0 : w1.fresh ≠ 0 := fresh_ne_zero w1
  have hws : w1.uv_write_script = w.uv_write_script := by simp [hw1]
  have hwire : w1.wire = w.wire := by simp [hw1]
  have hw2 : w.uv_write_script.head?.getD 0 = 0 := by
    simpa [List.headD_eq_head?_getD] using hw
  simp [sirinet_stream_incref, uv_write, world.find_stream, world.find_pkg, find_store, f1,
    h1, h2, h3, h4, h5, hne, hc', hp', hw2, hne.symm, h5.symm, hr0, hd0, hws, hwire]

/-- C1 (amended): when `sirinet_pkg_send` is called for a raw stream and the write
is queued (both allocations succeed and `uv_write` returns 0), the package in
memory has checkbit `tp XOR 255`, which is `255 - tp` for each of the 256 type
bytes, and the same pid, len, tp and data as before the call; the buffer handed
to the transport is that package with the byte count
`(sizeof(sirinet_pkg_t) + len) mod 2^32`, the `unsigned int` of `uv_buf_init`.
When `sizeof(sirinet_pkg_t) + len < 2^32`, the bytes handed to the transport are
the whole package: the header with checkbit `tp XOR 255 = 255 - tp` and with
pid, len and tp unchanged, and the `len` payload bytes unchanged. -/
theorem C1_send_sets_checkbit (K : headers) (w : world) (client pkg : Nat)
    (c : sirinet_stream_t) (p : sirinet_pkg_t)
    (hc : w.find_stream client = some c) (hp : w.find_pkg pkg = some p)
    (hraw : c.tp ≠ K.STREAM_API_CLIENT) (htp : p.tp < 256)
    (hm1 : w.malloc_script.head? ≠ some false)
    (hm2 : w.malloc_script.tail.head? ≠ some false)
    (hw : w.uv_write_script.headD 0 = 0) :
    ∃ w' wr, sirinet_pkg_send K w client pkg = some (0, w') ∧
      w'.wire = wr :: w.wire ∧
      wr.base = pkg ∧
      wr.size = (sizeof_sirinet_pkg_t + p.len) % 2 ^ 64 % 2 ^ 32 ∧
      (∃ q, w'.find_pkg pkg = some q ∧
        q.checkbit = p.tp ^^^ 255 ∧ q.checkbit = 255 - p.tp ∧
        q.pid = p.pid ∧ q.len = p.len ∧ q.tp = p.tp ∧ q.data = p.data) ∧
      (sizeof_sirinet_pkg_t + p.len < 2 ^ 32 →
        wr.size = sizeof_sirinet_pkg_t + p.len ∧
        wr.pkg.checkbit = p.tp ^^^ 255 ∧ wr.pkg.checkbit = 255 - p.tp ∧
        wr.pkg.pid = p.pid ∧ wr.pkg.len = p.len ∧ wr.pkg.tp = p.tp ∧
        wr.pkg.payload = p.payload) := by
  obtain ⟨w', wr, hs, hwr, hb, -, hsz, hpid, hlen, htp', hcb, hdata, q, hq, qpid, qlen, qtp,
    qcb, qdata⟩ := send_queued K w client pkg c p hc hp hraw hm1 hm2 hw
  have hx := xor_255 p.tp htp
  refine ⟨w', wr, hs, hwr, hb, hsz, ⟨q, hq, ?_, ?_, qpid, qlen, qtp, qdata⟩, ?_⟩
  · rw [qcb]; exact hx.1
  · rw [qcb, hx.1]; exact hx.2
  · intro hb32
    have hsz' : wr.size = sizeof_sirinet_pkg_t + p.len := by
      rw [hsz, Nat.mod_eq_of_lt (lt_trans hb32 (by norm_num)), Nat.mod_eq_of_lt hb32]
    refine ⟨hsz', ?_, ?_, hpid, hlen, htp', ?_⟩
    · rw [hcb]; exact hx.1
    · rw [hcb, hx.1]; exact hx.2
    · unfold sirinet_pkg_t.payload
      rw [hdata, hlen, hsz', Nat.add_sub_cancel_left, List.take_take, Nat.min_self]

/-- C1 at the query-error package of `world_example`, sent to the raw stream at
address 1: 17 bytes are handed to the transport and the checkbit is 190, the
complement of 65. -/
theorem C1_send_sets_checkbit_witness :
    world_example.find_stream 1 = some stream_example ∧
    world_example.find_pkg 4 = some pkg_example ∧
    stream_example.tp ≠ headers_example.STREAM_API_CLIENT ∧
    pkg_example.tp < 256 ∧
    world_example.malloc_script.head? ≠ some false ∧
    world_example.malloc_script.tail.head? ≠ some false ∧
    world_example.uv_write_script.headD 0 = 0 ∧
    sizeof_sirinet_pkg_t + pkg_example.len < 2 ^ 32 ∧
    ∃ w' wr, sirinet_pkg_send headers_example world_example 1 4 = some (0, w') ∧
      w'.wire = wr :: world_example.wire ∧
      wr.base = 4 ∧
      wr.size = (sizeof_sirinet_pkg_t + pkg_example.len) % 2 ^ 64 % 2 ^ 32 ∧
      (∃ q, w'.find_pkg 4 = some q ∧
        q.checkbit = pkg_example.tp ^^^ 255 ∧ q.checkbit = 255 - pkg_example.tp ∧
        q.pid = pkg_example.pid ∧ q.len = pkg_example.len ∧ q.tp = pkg_example.tp ∧
        q.data = pkg_example.data) ∧
      (sizeof_sirinet_pkg_t + pkg_example.len < 2 ^ 32 →
        wr.size = sizeof_sirinet_pkg_t + pkg_example.len ∧
        wr.pkg.checkbit = pkg_example.tp ^^^ 255 ∧
        wr.pkg.checkbit = 255 - pkg_example.tp ∧
        wr.pkg.pid = pkg_example.pid ∧ wr.pkg.len = pkg_example.len ∧
        wr.pkg.tp = pkg_example.tp ∧ wr.pkg.payload = pkg_example.payload) :=
  ⟨by decide, by decide, by decide, by decide, by decide, by decide, by decide, by decide,
    C1_send_sets_checkbit headers_example world_example 1 4 stream_example pkg_example
      (by decide) (by decide) (by decide) (by decide) (by decide) (by decide) (by decide)⟩

/-- C1, the case the claim misses: a package whose `len` is 2^32 - 1 and whose
buffer holds that many payload bytes is sent to a raw stream and the write is
queued. The byte count `sizeof(sirinet_pkg_t) + len` is 2^32 + 7 and
`uv_buf_init` takes it as the `unsigned int` 7: fewer bytes than the header are
handed to the transport, so the checkbit, the last byte of the header, and
every payload byte are left out, while the payload of the package before the
call has 2^32 - 1 bytes. -/
theorem C1_counterexample :
    world_big_pkg.find_stream 1 = some stream_example ∧
    world_big_pkg.find_pkg 4 = some pkg_big ∧
    pkg_big.len < 2 ^ 32 ∧ pkg_big.tp < 256 ∧
    pkg_big.payload.length = 2 ^ 32 - 1 ∧
    ∃ w' wr, sirinet_pkg_send headers_example world_big_pkg 1 4 = some (0, w') ∧
      w'.wire = wr :: world_big_pkg.wire ∧
      wr.base = 4 ∧ wr.size = 7 ∧ wr.size < sizeof_sirinet_pkg_t ∧
      wr.pkg.payload = [] ∧ wr.pkg.payload.length < pkg_big.payload.length := by
  have hc : world_big_pkg.find_stream 1 = some stream_example := rfl
  have hp : world_big_pkg.find_pkg 4 = some pkg_big := rfl
  have hlen : pkg_big.len = 2 ^ 32 - 1 := rfl
  have hpl : pkg_big.payload.length = 2 ^ 32 - 1 := by
    unfold sirinet_pkg_t.payload
    rw [List.length_take, hlen]
    have hd : pkg_big.data = big_payload := rfl
    rw [hd, big_payload_length]
    norm_num
  obtain ⟨w', wr, hs, hwr, hb, -, hsz, -, -, -, -, hdata, -⟩ :=
    send_queued headers_example world_big_pkg 1 4 stream_example pkg_big hc hp
      (by decide) (by decide) (by decide) (by decide)
  have hsz7 : wr.size = 7 := by
    rw [hsz, hlen]; rfl
  have hpay : wr.pkg.payload = [] := by
    unfold sirinet_pkg_t.payload
    rw [hdata, hsz7]
    have h0 : 7 - sizeof_sirinet_pkg_t = 0 := rfl
    rw [h0, List.take_zero, List.take_nil]
  refine ⟨hc, hp, by rw [hlen]; norm_num, by decide, hpl, w', wr, hs, hwr, hb, hsz7, ?_, hpay,
    ?_⟩
  · rw [hsz7]; decide
  · rw [hpay, hpl]; norm_num

/-- C3: for pairwise different case labels, `pkg__tp_as_ht` returns 200 exactly for
the seven success types, 400 exactly for ERR_QUERY, ERR_INSERT, ERR_SERVICE and
ERR_SERVICE_INVALID_REQUEST, 401 exactly for ERR_AUTH_CREDENTIALS and
ERR_AUTH_UNKNOWN_DB, 403 exactly for ERR_USER_ACCESS and ERR_NOT_AUTHENTICATED,
503 exactly for ERR_SERVER and ERR_POOL, and 500 exactly for every other value;
`sirinet_pkg_send` to an API client calls `siri_api_send` with this status, the
package data and its length, writes nothing to a stream and returns 0. -/
theorem C3_status_table_and_api_send (K : headers) (hK : K.case_labels.Nodup) (tp : Nat) :
    (pkg__tp_as_ht K tp = siri_api_header_t.E200_OK ↔
      tp ∈ [K.CPROTO_RES_QUERY, K.CPROTO_RES_INSERT, K.CPROTO_RES_AUTH_SUCCESS,
            K.CPROTO_RES_ACK, K.CPROTO_RES_FILE, K.CPROTO_ACK_SERVICE,
            K.CPROTO_ACK_SERVICE_DATA]) ∧
    (pkg__tp_as_ht K tp = siri_api_header_t.E400_BAD_REQUEST ↔
      tp ∈ [K.CPROTO_ERR_QUERY, K.CPROTO_ERR_INSERT, K.CPROTO_ERR_SERVICE,
            K.CPROTO_ERR_SERVICE_INVALID_REQUEST]) ∧
    (pkg__tp_as_ht K tp = siri_api_header_t.E401_UNAUTHORIZED ↔
      tp ∈ [K.CPROTO_ERR_AUTH_CREDENTIALS, K.CPROTO_ERR_AUTH_UNKNOWN_DB]) ∧
    (pkg__tp_as_ht K tp = siri_api_header_t.E403_FORBIDDEN ↔
      tp ∈ [K.CPROTO_ERR_USER_ACCESS, K.CPROTO_ERR_NOT_AUTHENTICATED]) ∧
    (pkg__tp_as_ht K tp = siri_api_header_t.E503_SERVICE_UNAVAILABLE ↔
      tp ∈ [K.CPROTO_ERR_SERVER, K.CPROTO_ERR_POOL]) ∧
    (pkg__tp_as_ht K tp = siri_api_header_t.E500_INTERNAL_SERVER_ERROR ↔
      tp ∉ K.case_labels) ∧
    ∀ (w : world) (client pkg : Nat) (c : sirinet_stream_t) (p : sirinet_pkg_t),
      w.find_stream client = some c → c.tp = K.STREAM_API_CLIENT →
      w.find_pkg pkg = some p → p.tp = tp →
      ∃ w', sirinet_pkg_send K w client pkg = some (0, w') ∧
        w'.api = { request := client, ht := pkg__tp_as_ht K tp,
                   data := p.data, len := p.len } :: w.api ∧
        w'.wire = w.wire ∧ w'.pending = w.pending := by
  have e := tp_as_ht_eq K tp
  rw [case_labels_eq] at hK
  obtain ⟨-, h1, d1⟩ := List.nodup_append.mp hK
  obtain ⟨-, h2, d2⟩ := List.nodup_append.mp h1
  obtain ⟨-, h3, d3⟩ := List.nodup_append.mp h2
  obtain ⟨-, -, d4⟩ := List.nodup_append.mp h3
  have m200 : tp ∈ [K.CPROTO_RES_QUERY, K.CPROTO_RES_INSERT, K.CPROTO_RES_AUTH_SUCCESS,
      K.CPROTO_RES_ACK, K.CPROTO_RES_FILE, K.CPROTO_ACK_SERVICE,
      K.CPROTO_ACK_SERVICE_DATA] ↔ tp ∈ labels_200 K := Iff.rfl
  have m400 : tp ∈ [K.CPROTO_ERR_QUERY, K.CPROTO_ERR_INSERT, K.CPROTO_ERR_SERVICE,
      K.CPROTO_ERR_SERVICE_INVALID_REQUEST] ↔ tp ∈ labels_400 K := Iff.rfl
  have m401 : tp ∈ [K.CPROTO_ERR_AUTH_CREDENTIALS, K.CPROTO_ERR_AUTH_UNKNOWN_DB]
      ↔ tp ∈ labels_401 K := by
    simp only [labels_401, List.mem_cons, List.mem_singleton, List.not_mem_nil, or_false]
    exact Or.comm
  have m403 : tp ∈ [K.CPROTO_ERR_USER_ACCESS, K.CPROTO_ERR_NOT_AUTHENTICATED]
      ↔ tp ∈ labels_403 K := Iff.rfl
  have m503 : tp ∈ [K.CPROTO_ERR_SERVER, K.CPROTO_ERR_POOL] ↔ tp ∈ labels_503 K := Iff.rfl
  have m500 : tp ∉ K.case_labels ↔ (tp ∉ labels_200 K ∧ tp ∉ labels_400 K ∧
      tp ∉ labels_503 K ∧ tp ∉ labels_403 K ∧ tp ∉ labels_401 K) := by
    rw [case_labels_eq]; simp only [List.mem_append, not_or]
  rw [m200, m400, m401, m403, m503, m500]
  by_cases a : tp ∈ labels_200 K
  · have b : tp ∉ labels_400 K := fun h => d1 a (List.mem_append_left _ h)
    have c : tp ∉ labels_503 K :=
      fun h => d1 a (List.mem_append_right _ (List.mem_append_left _ h))
    have d : tp ∉ labels_403 K := fun h =>
      d1 a (List.mem_append_right _ (List.mem_append_right _ (List.mem_append_left _ h)))
    have f : tp ∉ labels_401 K := fun h =>
      d1 a (List.mem_append_right _ (List.mem_append_right _ (List.mem_append_right _ h)))
    refine ⟨?_, ?_, ?_, ?_, ?_, ?_, api_send_ok K tp⟩ <;> simp [e, a, b, c, d, f]
  · by_cases b : tp ∈ labels_400 K
    · have c : tp ∉ labels_503 K := fun h => d2 b (List.mem_append_left _ h)
      have d : tp ∉ labels_403 K :=
        fun h => d2 b (List.mem_append_right _ (List.mem_append_left _ h))
      have f : tp ∉ labels_401 K :=
        fun h => d2 b (List.mem_append_right _ (List.mem_append_right _ h))
      refine ⟨?_, ?_, ?_, ?_, ?_, ?_, api_send_ok K tp⟩ <;> simp [e, a, b, c, d, f]
    · by_cases c : tp ∈ labels_503 K
      · have d : tp ∉ labels_403 K := fun h => d3 c (List.mem_append_left _ h)
        have f : tp ∉ labels_401 K := fun h => d3 c (List.mem_append_right _ h)
        refine ⟨?_, ?_, ?_, ?_, ?_, ?_, api_send_ok K tp⟩ <;> simp [e, a, b, c, d, f]
      · by_cases d : tp ∈ labels_403 K
        · have f : tp ∉ labels_401 K := fun h => d4 d h
          refine ⟨?_, ?_, ?_, ?_, ?_, ?_, api_send_ok K tp⟩ <;> simp [e, a, b, c, d, f]
        · by_cases f : tp ∈ labels_401 K
          · refine ⟨?_, ?_, ?_, ?_, ?_, ?_, api_send_ok K tp⟩ <;> simp [e, a, b, c, d, f]
          · refine ⟨?_, ?_, ?_, ?_, ?_, ?_, api_send_ok K tp⟩ <;> simp [e, a, b, c, d, f]

/-- C3 at the sample constants: type 65 (query error) maps to 400, and sending the
query-error package of `world_example` to the API client at address 3 forwards its
data and length with that status and returns 0. -/
theorem C3_status_table_and_api_send_witness :
    headers_example.case_labels.Nodup ∧
    pkg__tp_as_ht headers_example 65 = siri_api_header_t.E400_BAD_REQUEST ∧
    pkg__tp_as_ht headers_example 200 = siri_api_header_t.E500_INTERNAL_SERVER_ERROR ∧
    ∃ w', sirinet_pkg_send headers_example world_example 3 4 = some (0, w') ∧
      w'.api = { request := 3, ht := pkg__tp_as_ht headers_example 65,
                 data := pkg_example.data, len := pkg_example.len } :: world_example.api ∧
      w'.wire = world_example.wire ∧ w'.pending = world_example.pending :=
  ⟨by decide,
    (C3_status_table_and_api_send headers_example (by decide) 65).2.1.mpr (by decide),
    (C3_status_table_and_api_send headers_example (by decide) 200).2.2.2.2.2.1.mpr (by decide),
    (C3_status_table_and_api_send headers_example (by decide) 65).2.2.2.2.2.2
      world_example 3 4 api_client_example pkg_example (by decide) (by decide) (by decide)
      (by decide)⟩

/-! ## Claims about construction (pkg.c) -/

/-- The number of payload bytes `sirinet_pkg_err` writes. -/
theorem pkg_err_data_length (mark len : Nat) (msg : List Nat) :
    (mark :: (qp_raw_tag 9 ++ error_msg_key ++ (qp_raw_tag len ++ msg.take len))).length =
      11 + (qp_raw_tag len).length + min len msg.length := by
  have hk : error_msg_key.length = 9 := rfl
  have ht9 : (qp_raw_tag 9).length = 1 := rfl
  simp only [List.length_cons, List.length_append, List.length_take, hk, ht9]
  omega

theorem qp_raw_tag_length_le (n : Nat) (h : n < 2 ^ 32) : (qp_raw_tag n).length ≤ 5 := by
  unfold qp_raw_tag
  split_ifs <;> simp [le_bytes_length]

/-- C4: a successful `sirinet_pkg_new` with a non-null data buffer of at least `len`
bytes returns a new package whose pid, len and tp are the arguments, whose
checkbit is 0 and whose payload is the first `len` bytes of the buffer; the
buffer is left as it was, and overwriting it later does not change the
package. -/
theorem C4_pkg_new_copies (w : world) (pid len tp data : Nat) (src : List Nat)
    (hd : data ≠ 0) (hsrc : w.find_bytes data = some src) (hlen : len ≤ src.length)
    (hm : w.malloc_script.head? ≠ some false) :
    ∃ pkg w' p, sirinet_pkg_new w pid len tp data = some (pkg, w') ∧
      pkg ≠ 0 ∧ pkg ≠ data ∧ w.find pkg = none ∧
      w'.find_pkg pkg = some p ∧
      p.pid = pid ∧ p.len = len ∧ p.tp = tp ∧ p.checkbit = 0 ∧
      p.payload = src.take len ∧ p.payload.length = len ∧
      w'.find_bytes data = some src ∧
      ∀ b : block, (w'.store data b).find_pkg pkg = some p := by
  have hsrc' := (find_bytes_iff _ _ _).mp hsrc
  have h1 : data ≠ w.fresh := ne_fresh_of_find _ _ _ hsrc'
  have h0 : w.fresh ≠ 0 := fresh_ne_zero w
  set pkg := w.fresh with hpkg
  set p : sirinet_pkg_t := ⟨pid, len, tp, 0, src.take len⟩ with hp
  set w' := (w.pop_malloc.store pkg (block.pkg ⟨0, 0, 0, 0, List.replicate len 0⟩)).store pkg
    (block.pkg p) with hw'
  have f1 : ∀ a, w'.find a = if a = pkg then some (block.pkg p) else w.find a := by
    intro a; by_cases h : a = pkg <;> simp [hw', find_store, h]
  have e1 : sirinet_pkg_new w pid len tp data = some (pkg, w') := by
    simp [sirinet_pkg_new, malloc_ok w _ hm, h0, hd, world.find_bytes, find_store, h1, hsrc',
      Nat.not_lt.mpr hlen]
  refine ⟨pkg, w', p, e1, h0, h1.symm, find_fresh w, ?_, rfl, rfl, rfl, rfl, ?_, ?_, ?_, ?_⟩
  · simp [world.find_pkg, f1]
  · simp [hp, sirinet_pkg_t.payload, List.take_take]
  · simp [hp, sirinet_pkg_t.payload, List.take_take, hlen]
  · simp [world.find_bytes, f1, h1, hsrc']
  · intro b; simp [world.find_pkg, find_store, f1, h1.symm]

/-- C4 at the buffer "bad query" of `world_example`, of which 3 bytes are taken. -/
theorem C4_pkg_new_copies_witness :
    (2 : Nat) ≠ 0 ∧ world_example.find_bytes 2 = some bad_query ∧ 3 ≤ bad_query.length ∧
    world_example.malloc_script.head? ≠ some false ∧
    ∃ pkg w' p, sirinet_pkg_new world_example 5 3 65 2 = some (pkg, w') ∧
      pkg ≠ 0 ∧ pkg ≠ 2 ∧ world_example.find pkg = none ∧
      w'.find_pkg pkg = some p ∧
      p.pid = 5 ∧ p.len = 3 ∧ p.tp = 65 ∧ p.checkbit = 0 ∧
      p.payload = bad_query.take 3 ∧ p.payload.length = 3 ∧
      w'.find_bytes 2 = some bad_query ∧
      ∀ b : block, (w'.store 2 b).find_pkg pkg = some p :=
  ⟨by decide, by decide, by decide, by decide,
    C4_pkg_new_copies world_example 5 3 65 2 bad_query (by decide) (by decide) (by decide)
      (by decide)⟩

/-- C5 (amended): for a packer made by `sirinet_packer_new` to which bytes were
appended, `sirinet_packer2pkg` returns the packer's own buffer as the package
and releases the packer handle; pid and tp are the arguments, checkbit is 0,
the subtraction `packer.len - sizeof(sirinet_pkg_t)` does not underflow and
gives the number k of appended bytes, and `len` is k modulo 2^32; when
k < 2^32, `len` is k and the payload is the appended bytes in order. -/
theorem C5_packer2pkg (w : world) (alloc_size pid tp : Nat) (chunks : List (List Nat))
    (ha : sizeof_sirinet_pkg_t ≤ alloc_size)
    (hm1 : w.malloc_script.head? ≠ some false)
    (hm2 : w.malloc_script.tail.head? ≠ some false) :
    ∃ packer w1 w2 pkg w3 k p,
      sirinet_packer_new w alloc_size = some (packer, w1) ∧
      qp_appends w1 packer chunks = some w2 ∧
      w2.find_packer packer = some k ∧
      sizeof_sirinet_pkg_t ≤ k.len ∧
      k.len - sizeof_sirinet_pkg_t = chunks.flatten.length ∧
      sirinet_packer2pkg w2 packer pid tp = some (pkg, w3) ∧
      pkg = k.buffer ∧ pkg ≠ 0 ∧ w3.find packer = none ∧
      w3.find_pkg pkg = some p ∧
      p.pid = pid ∧ p.tp = tp ∧ p.checkbit = 0 ∧
      p.len = chunks.flatten.length % 2 ^ 32 ∧
      p.payload = chunks.flatten.take (chunks.flatten.length % 2 ^ 32) ∧
      (chunks.flatten.length < 2 ^ 32 →
        p.len = chunks.flatten.length ∧ p.payload = chunks.flatten) := by
  obtain ⟨packer, w1, w2, pkg, w3, k, p, e1, e2, hk, h1, h2, e3, hb, h0, hn, hp, a, b, c, d, e⟩ :=
    packer_chain w alloc_size pid tp chunks ha hm1 hm2
  have hpl : p.payload = chunks.flatten.take (chunks.flatten.length % 2 ^ 32) := by
    simp only [sirinet_pkg_t.payload, d, e]
  refine ⟨packer, w1, w2, pkg, w3, k, p, e1, e2, hk, h1, h2, e3, hb, h0, hn, hp, a, b, c, d,
    hpl, ?_⟩
  intro hlt
  have hm : chunks.flatten.length % 2 ^ 32 = chunks.flatten.length := Nat.mod_eq_of_lt hlt
  refine ⟨by rw [d, hm], ?_⟩
  rw [hpl, hm]
  exact List.take_length _

/-- C5 (amended) at a packer of capacity 8 to which [1, 2] and then [3] are
appended. -/
theorem C5_packer2pkg_witness :
    sizeof_sirinet_pkg_t ≤ 8 ∧
    world_empty.malloc_script.head? ≠ some false ∧
    world_empty.malloc_script.tail.head? ≠ some false ∧
    ∃ packer w1 w2 pkg w3 k p,
      sirinet_packer_new world_empty 8 = some (packer, w1) ∧
      qp_appends w1 packer [[1, 2], [3]] = some w2 ∧
      w2.find_packer packer = some k ∧
      sizeof_sirinet_pkg_t ≤ k.len ∧
      k.len - sizeof_sirinet_pkg_t = [[1, 2], [3]].flatten.length ∧
      sirinet_packer2pkg w2 packer 7 9 = some (pkg, w3) ∧
      pkg = k.buffer ∧ pkg ≠ 0 ∧ w3.find packer = none ∧
      w3.find_pkg pkg = some p ∧
      p.pid = 7 ∧ p.tp = 9 ∧ p.checkbit = 0 ∧
      p.len = [[1, 2], [3]].flatten.length % 2 ^ 32 ∧
      p.payload = [[1, 2], [3]].flatten.take ([[1, 2], [3]].flatten.length % 2 ^ 32) ∧
      ([[1, 2], [3]].flatten.length < 2 ^ 32 →
        p.len = [[1, 2], [3]].flatten.length ∧ p.payload = [[1, 2], [3]].flatten) :=
  ⟨by decide, by decide, by decide,
    C5_packer2pkg world_empty 8 7 9 [[1, 2], [3]] (by decide) (by decide) (by decide)⟩

/-- C5 as stated fails when 2^32 bytes are appended: the package has `len` 0 and
an empty payload. -/
theorem C5_counterexample :
    ∃ packer w1 w2 pkg w3 k p,
      sirinet_packer_new world_empty 8 = some (packer, w1) ∧
      qp_appends w1 packer [big_payload] = some w2 ∧
      w2.find_packer packer = some k ∧
      k.len - sizeof_sirinet_pkg_t = 2 ^ 32 ∧
      sirinet_packer2pkg w2 packer 7 9 = some (pkg, w3) ∧
      w3.find_pkg pkg = some p ∧
      p.len = 0 ∧ p.len ≠ k.len - sizeof_sirinet_pkg_t ∧
      p.payload = [] ∧ p.payload ≠ big_payload := by
  obtain ⟨packer, w1, w2, pkg, w3, k, p, e1, e2, hk, -, h2, e3, -, -, -, hp, -, -, -, d, e⟩ :=
    packer_chain world_empty 8 7 9 [big_payload] (by decide) (by decide) (by decide)
  have hf : [big_payload].flatten = big_payload := by
    simp only [List.flatten, List.append_nil]
  rw [hf] at h2 d e
  rw [big_payload_length] at h2 d
  have hlen : p.len = 0 := by rw [d]; decide
  have hpl : p.payload = [] := by simp only [sirinet_pkg_t.payload, hlen, List.take_zero]
  have hne : big_payload ≠ [] := by
    intro h0
    have := big_payload_length
    rw [h0] at this
    exact absurd this (by decide)
  refine ⟨packer, w1, w2, pkg, w3, k, p, e1, e2, hk, h2, e3, hp, hlen, ?_, hpl, ?_⟩
  · rw [hlen, h2]; decide
  · rw [hpl]; exact hne.symm

/-- C6: a successful `sirinet_pkg_dup` returns a new package equal to the original
in pid, len, tp, checkbit and the `len` payload bytes; the original is
unchanged; overwriting or freeing either of the two leaves the other as it
is; and a duplicate of the duplicate has the same value again. -/
theorem C6_pkg_dup_independent (w : world) (pkg : Nat) (p : sirinet_pkg_t)
    (hp : w.find_pkg pkg = some p)
    (hm : w.malloc_script.head? ≠ some false)
    (hm2 : w.malloc_script.tail.head? ≠ some false) :
    ∃ dup w' q, sirinet_pkg_dup w pkg = some (dup, w') ∧
      dup ≠ 0 ∧ dup ≠ pkg ∧ w.find dup = none ∧
      w'.find_pkg dup = some q ∧ w'.find_pkg pkg = some p ∧
      q.pid = p.pid ∧ q.len = p.len ∧ q.tp = p.tp ∧ q.checkbit = p.checkbit ∧
      q.payload = p.payload ∧
      (∀ b : block, (w'.store pkg b).find_pkg dup = some q) ∧
      (∀ b : block, (w'.store dup b).find_pkg pkg = some p) ∧
      (free w' pkg).find_pkg dup = some q ∧
      (free w' dup).find_pkg pkg = some p ∧
      ∃ dup2 w'', sirinet_pkg_dup w' dup = some (dup2, w'') ∧ dup2 ≠ dup ∧ dup2 ≠ pkg ∧
        w''.find_pkg dup2 = some q := by
  have hp' := (find_pkg_iff _ _ _).mp hp
  obtain ⟨dup, w', e1, h0, h1, hnew, f1, hs⟩ := pkg_dup_ok w pkg p hp hm
  set q : sirinet_pkg_t := { p with data := p.data.take p.len } with hq
  have hd : w'.find_pkg dup = some q := by simp [world.find_pkg, f1]
  have hm' : w'.malloc_script.head? ≠ some false := by rw [hs]; exact hm2
  obtain ⟨dup2, w'', e2, -, h2, hnew2, f2, -⟩ := pkg_dup_ok w' dup q hd hm'
  have h3 : dup2 ≠ pkg := by
    intro e
    rw [e, f1, if_neg h1.symm, hp'] at hnew2
    cases hnew2
  refine ⟨dup, w', q, e1, h0, h1, hnew, hd, ?_, rfl, rfl, rfl, rfl, ?_, ?_, ?_,
    ?_, ?_, ?_⟩
  · simp [world.find_pkg, f1, h1.symm, hp']
  · simp [hq, sirinet_pkg_t.payload, List.take_take]
  · intro b; simp [world.find_pkg, find_store, f1, h1]
  · intro b; simp [world.find_pkg, find_store, f1, h1.symm, hp']
  · simp [world.find_pkg, find_free, f1, h1]
  · simp [world.find_pkg, find_free, f1, h1.symm, hp']
  · refine ⟨dup2, w'', e2, h2, h3, ?_⟩
    simp [world.find_pkg, f2, hq, List.take_take]

/-- C6 at the query-error package of `world_example`. -/
theorem C6_pkg_dup_independent_witness :
    world_example.find_pkg 4 = some pkg_example ∧
    world_example.malloc_script.head? ≠ some false ∧
    world_example.malloc_script.tail.head? ≠ some false ∧
    ∃ dup w' q, sirinet_pkg_dup world_example 4 = some (dup, w') ∧
      dup ≠ 0 ∧ dup ≠ 4 ∧ world_example.find dup = none ∧
      w'.find_pkg dup = some q ∧ w'.find_pkg 4 = some pkg_example ∧
      q.pid = pkg_example.pid ∧ q.len = pkg_example.len ∧ q.tp = pkg_example.tp ∧
      q.checkbit = pkg_example.checkbit ∧
      q.payload = pkg_example.payload ∧
      (∀ b : block, (w'.store 4 b).find_pkg dup = some q) ∧
      (∀ b : block, (w'.store dup b).find_pkg 4 = some pkg_example) ∧
      (free w' 4).find_pkg dup = some q ∧
      (free w' dup).find_pkg 4 = some pkg_example ∧
      ∃ dup2 w'', sirinet_pkg_dup w' dup = some (dup2, w'') ∧ dup2 ≠ dup ∧ dup2 ≠ 4 ∧
        w''.find_pkg dup2 = some q :=
  ⟨by decide, by decide, by decide,
    C6_pkg_dup_independent world_example 4 pkg_example (by decide) (by decide) (by decide)⟩

/-! ## Claims about qpack.h -/

/-- C7: the macros of qpack.h give open array 252, close array 253, open map 254
and close map 255, but the enum `qp_types_t` gives `QP_MAP_OPEN` the value 253
and `QP_ARRAY_CLOSE` the value 254: the two sets of names disagree on the
open-map and close-array markers. All other enumerators have the values of the
tag table. -/
theorem C7_enum_markers_disagree_with_macros :
    (QP_OPEN_ARRAY = 252 ∧ QP_CLOSE_ARRAY = 253 ∧ QP_OPEN_MAP = 254 ∧ QP_CLOSE_MAP = 255) ∧
    (qp_types_t.QP_ARRAY_OPEN.val = 252 ∧ qp_types_t.QP_MAP_OPEN.val = 253 ∧
      qp_types_t.QP_ARRAY_CLOSE.val = 254 ∧ qp_types_t.QP_MAP_CLOSE.val = 255) ∧
    (qp_types_t.QP_MAP_OPEN.val ≠ QP_OPEN_MAP ∧
      qp_types_t.QP_ARRAY_CLOSE.val ≠ QP_CLOSE_ARRAY ∧
      qp_types_t.QP_MAP_OPEN.val = QP_CLOSE_ARRAY ∧
      qp_types_t.QP_ARRAY_CLOSE.val = QP_OPEN_MAP) ∧
    (enum_assign qp_types_decl 0).map Prod.snd =
      [-1, 0, 1, 125, 126, 127, 228, 229, 230, 231, 232, 233, 234, 235, 236,
       237, 238, 239, 240, 241, 242, 243, 244, 245, 246, 247, 248,
       249, 250, 251, 252, 253, 254, 255] := by
  decide

/-! ## Claims about the release of resources (pkg.c) -/

/-- A queued send followed by its write callback: the package, the send record and
the write request are each freed once and the reference count is back. -/
theorem send_then_write_cb (K : headers) (w : world) (client pkg : Nat) (status : Int)
    (c : sirinet_stream_t) (p : sirinet_pkg_t)
    (hc : w.find_stream client = some c) (hp : w.find_pkg pkg = some p) (hp0 : pkg ≠ 0)
    (hraw : c.tp ≠ K.STREAM_API_CLIENT)
    (hm1 : w.malloc_script.head? ≠ some false)
    (hm2 : w.malloc_script.tail.head? ≠ some false)
    (hw : w.uv_write_script.headD 0 = 0) :
    ∃ w' req data w'', sirinet_pkg_send K w client pkg = some (0, w') ∧
      w'.pending = req :: w.pending ∧
      w'.find_stream client = some { c with ref := c.ref + 1 } ∧
      PKG_write_cb K w' req status = some w'' ∧
      req ≠ data ∧ req ≠ pkg ∧ data ≠ pkg ∧
      w.find req = none ∧ w.find data = none ∧
      w''.frees = req :: data :: pkg :: w.frees ∧
      w''.find pkg = none ∧ w''.find req = none ∧ w''.find data = none ∧
      w''.find_stream client = some c := by
  have hc' := (find_stream_iff _ _ _).mp hc
  have hp' := (find_pkg_iff _ _ _).mp hp
  have hne : client ≠ pkg := by intro e; subst e; rw [hc'] at hp'; cases hp'
  have h1 : client ≠ w.fresh := ne_fresh_of_find _ _ _ hc'
  have h2 : pkg ≠ w.fresh := ne_fresh_of_find _ _ _ hp'
  set req := w.fresh with hreq
  set w1 := w.pop_malloc.store req (block.uv_write 0) with hw1
  have f1 : ∀ q, w1.find q = if q = req then some (block.uv_write 0) else w.find q := by
    intro q; simp [hw1, find_store]
  have h3 : client ≠ w1.fresh := ne_fresh_of_find _ _ _ (by rw [f1, if_neg h1]; exact hc')
  have h4 : pkg ≠ w1.fresh := ne_fresh_of_find _ _ _ (by rw [f1, if_neg h2]; exact hp')
  have h5 : req ≠ w1.fresh := ne_fresh_of_find _ _ _ (by rw [f1, if_pos rfl])
  have hnd : w.find w1.fresh = none := by
    have := find_fresh w1
    rw [f1, if_neg h5.symm] at this
    exact this
  have hr0 : req ≠ 0 := fresh_ne_zero w
  have hd0 : w1.fresh ≠ 0 := fresh_ne_zero w1
  have hws : w1.uv_write_script = w.uv_write_script := by simp [hw1]
  have hwire : w1.wire = w.wire := by simp [hw1]
  have hpend : w1.pending = w.pending := by simp [hw1]
  have hfrees : w1.frees = w.frees := by simp [hw1]
  have hw2 : w.uv_write_script.head?.getD 0 = 0 := by
    simpa [List.headD_eq_head?_getD] using hw
  have e : ∃ w', sirinet_pkg_send K w client pkg = some (0, w') ∧
      w'.pending = req :: w.pending ∧ w'.frees = w.frees ∧
      (∀ q, w'.find q =
        if q = pkg then some (block.pkg { p with checkbit := (p.tp ^^^ 255) % 256 })
        else if q = req then some (block.uv_write w1.fresh)
        else if q = w1.fresh then some (block.pkg_send { pkg := pkg, client := client })
        else if q = client then some (block.stream { c with ref := c.ref + 1 })
        else w.find q) := by
    simp only [sirinet_pkg_send, hc, hp, hraw, Option.bind_eq_bind, Option.some_bind,
      if_false, ↓reduceIte]
    rw [malloc_ok w _ hm1]
    simp only [fresh_ne_zero, ↓reduceIte, ← hreq, ← hw1]
    rw [malloc_ok _ _ (by simpa [hw1] using hm2)]
    simp only [fresh_ne_zero, ↓reduceIte]
    simp [sirinet_stream_incref, uv_write, world.find_stream,
      world.find_pkg, find_store, f1,
      h1, h2, h3, h4, h5, hne, hc', hp', hw2, hne.symm, h5.symm, h3.symm, h4.symm, hr0, hd0, hws,
      hwire, hpend, hfrees, hp0, h1.symm, h2.symm]
    intro q
    by_cases a : q = pkg
    · simp [a]
    · by_cases b : q = req
      · simp [a, b]
      · by_cases d : q = w1.fresh
        · simp [a, b, d, h5.symm, h4.symm]
        · by_cases f : q = client <;> simp [a, b, d, f, h1, h3, hne]
  obtain ⟨w', e1, e2, e3, fw⟩ := e
  have g1 : w'.find req = some (block.uv_write w1.fresh) := by
    rw [fw]; simp [h2.symm]
  have g2 : w'.find w1.fresh = some (block.pkg_send { pkg := pkg, client := client }) := by
    rw [fw]; simp [h4.symm, h5.symm]
  have g3 : w'.find client = some (block.stream { c with ref := c.ref + 1 }) := by
    rw [fw]; simp [hne, h1, h3]
  have e4 : ∃ w'', PKG_write_cb K w' req status = some w'' ∧
      w''.frees = req :: w1.fresh :: pkg :: w.frees ∧
      w''.find pkg = none ∧ w''.find req = none ∧ w''.find w1.fresh = none ∧
      w''.find_stream client = some c := by
    by_cases hst : status = 0
    · simp [PKG_write_cb, hst, world.find_uv_write, world.find_pkg_send, g1, g2, g3,
        sirinet_stream_decref, world.find_stream, find_free, find_store, free_frees, hp0, hd0,
        hr0, e3, h1, h3, hne, h4, h5, h2, h5.symm, h4.symm, h2.symm]
    · simp [PKG_write_cb, hst, world.find_uv_write, world.find_pkg_send, g1, g2, g3,
        sirinet_stream_decref, world.find_stream, find_free, find_store, free_frees, hp0, hd0,
        hr0, e3, h1, h3, hne, h4, h5, h2, h5.symm, h4.symm, h2.symm]
  obtain ⟨w'', e5, e6, e7, e8, e9, e10⟩ := e4
  exact ⟨w', req, w1.fresh, w'', e1, e2, (find_stream_iff _ _ _).mpr g3, e5, h5, h2.symm,
    h4.symm, find_fresh w, hnd, e6, e7, e8, e9, e10⟩

/-- When the write request cannot be allocated, `sirinet_pkg_send` returns -1, the
package is freed once and nothing else changes hands. -/
theorem send_req_alloc_failure (K : headers) (w : world) (client pkg : Nat)
    (c : sirinet_stream_t) (p : sirinet_pkg_t)
    (hc : w.find_stream client = some c) (hp : w.find_pkg pkg = some p) (hp0 : pkg ≠ 0)
    (hraw : c.tp ≠ K.STREAM_API_CLIENT)
    (hm1 : w.malloc_script.head? = some false) :
    ∃ w', sirinet_pkg_send K w client pkg = some (-1, w') ∧
      w'.frees = pkg :: w.frees ∧ w'.find pkg = none ∧
      w'.find_stream client = some c ∧ w'.wire = w.wire ∧ w'.pending = w.pending ∧
      ∀ a, a ≠ pkg → w'.find a = w.find a := by
  have hc' := (find_stream_iff _ _ _).mp hc
  have hp' := (find_pkg_iff _ _ _).mp hp
  have hne : client ≠ pkg := by intro e; subst e; rw [hc'] at hp'; cases hp'
  refine ⟨free (ERR_ALLOC w.pop_malloc) pkg, ?_, ?_, ?_, ?_, ?_, ?_, ?_⟩
  · simp [sirinet_pkg_send, hc, hp, hraw, malloc_fail w _ hm1]
  · simp [free_frees, hp0]
  · simp [find_free, hp0]
  · simp [world.find_stream, find_free, hne, hc']
  · simp
  · simp
  · intro a ha; simp [find_free, ha]

/-- When the send record cannot be allocated, `sirinet_pkg_send` returns -1, the
package and the write request are each freed once and nothing else changes
hands. -/
theorem send_data_alloc_failure (K : headers) (w : world) (client pkg : Nat)
    (c : sirinet_stream_t) (p : sirinet_pkg_t)
    (hc : w.find_stream client = some c) (hp : w.find_pkg pkg = some p) (hp0 : pkg ≠ 0)
    (hraw : c.tp ≠ K.STREAM_API_CLIENT)
    (hm1 : w.malloc_script.head? ≠ some false)
    (hm2 : w.malloc_script.tail.head? = some false) :
    ∃ w' req, sirinet_pkg_send K w client pkg = some (-1, w') ∧
      w.find req = none ∧ req ≠ 0 ∧
      w'.frees = req :: pkg :: w.frees ∧ w'.find pkg = none ∧ w'.find req = none ∧
      w'.find_stream client = some c ∧ w'.wire = w.wire ∧ w'.pending = w.pending := by
  have hc' := (find_stream_iff _ _ _).mp hc
  have hp' := (find_pkg_iff _ _ _).mp hp
  have hne : client ≠ pkg := by intro e; subst e; rw [hc'] at hp'; cases hp'
  have h1 : client ≠ w.fresh := ne_fresh_of_find _ _ _ hc'
  have h2 : pkg ≠ w.fresh := ne_fresh_of_find _ _ _ hp'
  have h0 : w.fresh ≠ 0 := fresh_ne_zero w
  have hm2' : (w.pop_malloc.store w.fresh (block.uv_write 0)).malloc_script.head?
      = some false := by simpa using hm2
  refine ⟨free (free (ERR_ALLOC (w.pop_malloc.store w.fresh (block.uv_write 0)).pop_malloc) pkg)
    w.fresh, w.fresh, ?_, find_fresh w, h0, ?_, ?_, ?_, ?_, ?_, ?_⟩
  · simp [sirinet_pkg_send, hc, hp, hraw, malloc_ok w _ hm1, h0, malloc_fail _ _ hm2']
  · simp [free_frees, hp0, h0]
  · simp [find_free, hp0, h0, h2]
  · simp [find_free, h0]
  · simp [world.find_stream, find_free, find_store, hne, h1, hc']
  · simp
  · simp

/-- C8: on the path where both allocations succeed and `uv_write` fails,
`sirinet_pkg_send` returns -1, frees the package and the write request once
each and restores the reference count, but the `pkg_send_t` record it allocated
is never freed: it is still allocated after the call. -/
theorem C8_uv_write_failure_leaks_send_record (K : headers) (w : world) (client pkg : Nat)
    (c : sirinet_stream_t) (p : sirinet_pkg_t)
    (hc : w.find_stream client = some c) (hp : w.find_pkg pkg = some p) (hp0 : pkg ≠ 0)
    (hraw : c.tp ≠ K.STREAM_API_CLIENT)
    (hm1 : w.malloc_script.head? ≠ some false)
    (hm2 : w.malloc_script.tail.head? ≠ some false)
    (hw : w.uv_write_script.headD 0 ≠ 0) :
    ∃ w' req data, sirinet_pkg_send K w client pkg = some (-1, w') ∧
      req ≠ 0 ∧ data ≠ 0 ∧ req ≠ data ∧ w.find req = none ∧ w.find data = none ∧
      w'.frees = req :: pkg :: w.frees ∧
      data ∉ w'.frees ∧
      w'.find_pkg_send data = some { pkg := pkg, client := client } ∧
      w'.find pkg = none ∧ w'.find req = none ∧
      w'.find_stream client = some c ∧
      w'.wire = w.wire ∧ w'.pending = w.pending := by
  have hc' := (find_stream_iff _ _ _).mp hc
  have hp' := (find_pkg_iff _ _ _).mp hp
  have hne : client ≠ pkg := by intro e; subst e; rw [hc'] at hp'; cases hp'
  have h1 : client ≠ w.fresh := ne_fresh_of_find _ _ _ hc'
  have h2 : pkg ≠ w.fresh := ne_fresh_of_find _ _ _ hp'
  set req := w.fresh with hreq
  set w1 := w.pop_malloc.store req (block.uv_write 0) with hw1
  have f1 : ∀ q, w1.find q = if q = req then some (block.uv_write 0) else w.find q := by
    intro q; simp [hw1, find_store]
  have h3 : client ≠ w1.fresh := ne_fresh_of_find _ _ _ (by rw [f1, if_neg h1]; exact hc')
  have h4 : pkg ≠ w1.fresh := ne_fresh_of_find _ _ _ (by rw [f1, if_neg h2]; exact hp')
  have h5 : req ≠ w1.fresh := ne_fresh_of_find _ _ _ (by rw [f1, if_pos rfl])
  have hnd : w.find w1.fresh = none := by
    have := find_fresh w1
    rw [f1, if_neg h5.symm] at this
    exact this
  have hfr : w1.fresh ∉ w.frees := by
    have := fresh_not_freed w1
    simpa [hw1] using this
  have hr0 : req ≠ 0 := fresh_ne_zero w
  have hd0 : w1.fresh ≠ 0 := fresh_ne_zero w1
  have hws : w1.uv_write_script = w.uv_write_script := by simp [hw1]
  have hwire : w1.wire = w.wire := by simp [hw1]
  have hpend : w1.pending = w.pending := by simp [hw1]
  have hfrees : w1.frees = w.frees := by simp [hw1]
  have hw2 : ¬ w.uv_write_script.head?.getD 0 = 0 := by
    simpa [List.headD_eq_head?_getD] using hw
  have e : ∃ w', sirinet_pkg_send K w client pkg = some (-1, w') ∧
      w'.frees = req :: pkg :: w.frees ∧
      w'.find_pkg_send w1.fresh = some { pkg := pkg, client := client } ∧
      w'.find pkg = none ∧ w'.find req = none ∧
      w'.find_stream client = some c ∧
      w'.wire = w.wire ∧ w'.pending = w.pending := by
    simp only [sirinet_pkg_send, hc, hp, hraw, Option.bind_eq_bind, Option.some_bind,
      if_false, ↓reduceIte]
    rw [malloc_ok w _ hm1]
    simp only [fresh_ne_zero, ↓reduceIte, ← hreq, ← hw1]
    rw [malloc_ok _ _ (by simpa [hw1] using hm2)]
    simp only [fresh_ne_zero, ↓reduceIte]
    simp [sirinet_stream_incref, sirinet_stream_decref, uv_write, world.find_stream,
      world.find_pkg, world.find_pkg_send, find_store, find_free, free_frees, f1,
      h1, h2, h3, h4, h5, hne, hc', hp', hw2, hne.symm, h5.symm, h3.symm, h4.symm, hr0, hd0, hws,
      hwire, hpend, hfrees, hp0, h1.symm, h2.symm]
  obtain ⟨w', e1, e2, e3, e4, e5, e6, e7, e8⟩ := e
  refine ⟨w', req, w1.fresh, e1, hr0, hd0, h5, find_fresh w, hnd, e2, ?_, e3, e4, e5, e6, e7, e8⟩
  rw [e2]
  simp [h5.symm, h4.symm, hfr]

/-- C8 at `world_write_refused`: the send to the raw stream at address 1 fails in
`uv_write` and leaves the send record allocated. -/
theorem C8_uv_write_failure_leaks_send_record_witness :
    world_write_refused.find_stream 1 = some stream_example ∧
    world_write_refused.find_pkg 4 = some pkg_example ∧
    (4 : Nat) ≠ 0 ∧
    stream_example.tp ≠ headers_example.STREAM_API_CLIENT ∧
    world_write_refused.malloc_script.head? ≠ some false ∧
    world_write_refused.malloc_script.tail.head? ≠ some false ∧
    world_write_refused.uv_write_script.headD 0 ≠ 0 ∧
    ∃ w' req data, sirinet_pkg_send headers_example world_write_refused 1 4 = some (-1, w') ∧
      req ≠ 0 ∧ data ≠ 0 ∧ req ≠ data ∧
      world_write_refused.find req = none ∧ world_write_refused.find data = none ∧
      w'.frees = req :: 4 :: world_write_refused.frees ∧
      data ∉ w'.frees ∧
      w'.find_pkg_send data = some { pkg := 4, client := 1 } ∧
      w'.find 4 = none ∧ w'.find req = none ∧
      w'.find_stream 1 = some stream_example ∧
      w'.wire = world_write_refused.wire ∧ w'.pending = world_write_refused.pending :=
  ⟨by decide, by decide, by decide, by decide, by decide, by decide, by decide,
    C8_uv_write_failure_leaks_send_record headers_example world_write_refused 1 4
      stream_example pkg_example (by decide) (by decide) (by decide) (by decide) (by decide)
      (by decide) (by decide)⟩

/-! ## Claims about the tee (tee.c) -/

/-- C9 (amended): when a connect attempt completes with a non-zero status and the
close callback it schedules has run, the INIT, CONNECTING and CONNECTED flags
are clear, no new connect attempt was started and the request is freed; when
`asprintf` succeeds, `err_msg_` holds "Cannot connect to pipe '<name>'
(<reason>)" and `tee_str` reports it; when `asprintf` fails, `err_msg_` is
`NULL` and `tee_str` reports the pipe name, or "disabled" without one. In
general `tee_str` returns `err_msg_` when set, else the pipe name when set,
else "disabled". -/
theorem C9_failed_connect_resets_tee (K : tee_h) (t : tee_world) (status : Int) (hs : status ≠ 0) :
    (tee__on_connect K t status).closing = t.closing ++ [tee_close_cb.tee__close_cb] ∧
    flag_test (tee__close_cb K (tee__on_connect K t status)).tee.flags
      K.SIRIDB_TEE_FLAG_INIT = false ∧
    flag_test (tee__close_cb K (tee__on_connect K t status)).tee.flags
      K.SIRIDB_TEE_FLAG_CONNECTING = false ∧
    flag_test (tee__close_cb K (tee__on_connect K t status)).tee.flags
      K.SIRIDB_TEE_FLAG_CONNECTED = false ∧
    (tee__close_cb K (tee__on_connect K t status)).connect_attempts = t.connect_attempts ∧
    (tee__close_cb K (tee__on_connect K t status)).reqs = t.reqs - 1 ∧
    (t.asprintf_script.head? ≠ some false →
      (tee__close_cb K (tee__on_connect K t status)).tee.err_msg_ =
        some ("Cannot connect to pipe '" ++ fmt_s t.tee.pipe_name_ ++ "' ("
          ++ K.uv_strerror status ++ ")") ∧
      tee_str (tee__close_cb K (tee__on_connect K t status)).tee =
        "Cannot connect to pipe '" ++ fmt_s t.tee.pipe_name_ ++ "' ("
          ++ K.uv_strerror status ++ ")") ∧
    (t.asprintf_script.head? = some false →
      (tee__close_cb K (tee__on_connect K t status)).tee.err_msg_ = none ∧
      tee_str (tee__close_cb K (tee__on_connect K t status)).tee
        = t.tee.pipe_name_.getD "disabled") ∧
    (∀ tee : siridb_tee_t, ∀ e n : String,
      (tee.err_msg_ = some e → tee_str tee = e) ∧
      (tee.err_msg_ = none → tee.pipe_name_ = some n → tee_str tee = n) ∧
      (tee.err_msg_ = none → tee.pipe_name_ = none → tee_str tee = "disabled")) := by
  obtain ⟨c1, c2, c3⟩ := close_cb_flags K (tee__on_connect K t status)
  refine ⟨?_, c1, c2, c3, ?_, ?_, ?_, ?_, ?_⟩
  · by_cases h : t.asprintf_script.head? = some false <;>
      simp [tee__on_connect, hs, tee_asprintf, h, tee_uv_close, tee_log]
  · by_cases h : t.asprintf_script.head? = some false <;>
      simp [tee__on_connect, hs, tee_asprintf, h, tee_uv_close, tee_log, tee__close_cb]
  · by_cases h : t.asprintf_script.head? = some false <;>
      simp [tee__on_connect, hs, tee_asprintf, h, tee_uv_close, tee_log, tee__close_cb]
  · intro h
    simp [tee__on_connect, hs, tee_asprintf, h, tee_uv_close, tee_log, tee__close_cb, tee_str]
  · intro h
    simp [tee__on_connect, hs, tee_asprintf, h, tee_uv_close, tee_log, tee__close_cb, tee_str]
    cases t.tee.pipe_name_ <;> rfl
  · intro tee e n
    refine ⟨?_, ?_, ?_⟩
    · intro h; simp [tee_str, h]
    · intro h1 h2; simp [tee_str, h1, h2]
    · intro h1 h2; simp [tee_str, h1, h2]

/-- C9 (amended) at a tee that is connecting to "/tmp/tee.sock", with status -2. -/
theorem C9_failed_connect_resets_tee_witness :
    ((-2 : Int) ≠ 0) ∧
    (tee__on_connect tee_h_example tee_world_example (-2)).closing
      = tee_world_example.closing ++ [tee_close_cb.tee__close_cb] ∧
    flag_test (tee__close_cb tee_h_example
      (tee__on_connect tee_h_example tee_world_example (-2))).tee.flags
      tee_h_example.SIRIDB_TEE_FLAG_CONNECTING = false ∧
    (tee_world_example.asprintf_script.head? ≠ some false) ∧
    tee_str (tee__close_cb tee_h_example
      (tee__on_connect tee_h_example tee_world_example (-2))).tee
      = "Cannot connect to pipe '/tmp/tee.sock' (no such file or directory)" :=
  ⟨by decide,
    (C9_failed_connect_resets_tee tee_h_example tee_world_example (-2) (by decide)).1,
    (C9_failed_connect_resets_tee tee_h_example tee_world_example (-2) (by decide)).2.2.1,
    by decide,
    ((C9_failed_connect_resets_tee tee_h_example tee_world_example (-2)
      (by decide)).2.2.2.2.2.2.1 (by decide)).2⟩

/-- C9 as stated fails when `asprintf` cannot allocate the message: after the
failed connect and the close callback `err_msg_` is `NULL` and `tee_str`
reports the pipe name, not the error string. -/
theorem C9_counterexample :
    (tee__close_cb tee_h_example
      (tee__on_connect tee_h_example tee_world_asprintf_fails (-2))).tee.err_msg_ = none ∧
    tee_str (tee__close_cb tee_h_example
      (tee__on_connect tee_h_example tee_world_asprintf_fails (-2))).tee = "/tmp/tee.sock" ∧
    tee_str (tee__close_cb tee_h_example
      (tee__on_connect tee_h_example tee_world_asprintf_fails (-2))).tee
      ≠ "Cannot connect to pipe '/tmp/tee.sock' (no such file or directory)" := by
  decide

/-- C10: when the connect request cannot be allocated, `siridb_tee_connect` returns
-1 with the CONNECTING flag set, so the flag word differs from its value before
the call, and a later call returns 0 without starting a connect attempt. -/
theorem C10_alloc_failure_leaves_connecting (K : tee_h) (t : tee_world)
    (hC : K.SIRIDB_TEE_FLAG_CONNECTING ≠ 0)
    (hclear : flag_test t.tee.flags K.SIRIDB_TEE_FLAG_CONNECTING = false)
    (hfail : t.malloc_script.head? = some false) :
    (siridb_tee_connect K t).1 = -1 ∧
    (siridb_tee_connect K t).2.tee.flags
      = flag_set t.tee.flags K.SIRIDB_TEE_FLAG_CONNECTING ∧
    (siridb_tee_connect K t).2.tee.flags ≠ t.tee.flags ∧
    flag_test (siridb_tee_connect K t).2.tee.flags K.SIRIDB_TEE_FLAG_CONNECTING = true ∧
    siridb_tee_connect K (siridb_tee_connect K t).2 = (0, (siridb_tee_connect K t).2) ∧
    (siridb_tee_connect K (siridb_tee_connect K t).2).2.connect_attempts
      = t.connect_attempts := by
  have h0 := (flag_test_false_iff _ _).mp hclear
  have h1 : flag_test (flag_set t.tee.flags K.SIRIDB_TEE_FLAG_CONNECTING)
      K.SIRIDB_TEE_FLAG_CONNECTING = true :=
    (flag_test_true_iff _ _).mpr (flag_set_test _ _ hC)
  have e : siridb_tee_connect K t = (-1, { t with
      tee := { t.tee with flags := flag_set t.tee.flags K.SIRIDB_TEE_FLAG_CONNECTING },
      malloc_script := t.malloc_script.tail }) := by
    simp [siridb_tee_connect, hclear, tee_malloc, hfail]
  rw [e]
  refine ⟨rfl, rfl, flag_set_ne _ _ hC h0, h1, ?_, ?_⟩
  · simp [siridb_tee_connect, h1]
  · simp [siridb_tee_connect, h1]

/-- C10 at a tee that is not connecting, with an environment that refuses the
allocation of the connect request. -/
theorem C10_alloc_failure_leaves_connecting_witness :
    tee_h_example.SIRIDB_TEE_FLAG_CONNECTING ≠ 0 ∧
    flag_test tee_world_no_memory.tee.flags tee_h_example.SIRIDB_TEE_FLAG_CONNECTING = false ∧
    tee_world_no_memory.malloc_script.head? = some false ∧
    (siridb_tee_connect tee_h_example tee_world_no_memory).1 = -1 ∧
    (siridb_tee_connect tee_h_example tee_world_no_memory).2.tee.flags
      = flag_set tee_world_no_memory.tee.flags tee_h_example.SIRIDB_TEE_FLAG_CONNECTING ∧
    (siridb_tee_connect tee_h_example tee_world_no_memory).2.tee.flags
      ≠ tee_world_no_memory.tee.flags ∧
    flag_test (siridb_tee_connect tee_h_example tee_world_no_memory).2.tee.flags
      tee_h_example.SIRIDB_TEE_FLAG_CONNECTING = true ∧
    siridb_tee_connect tee_h_example (siridb_tee_connect tee_h_example tee_world_no_memory).2
      = (0, (siridb_tee_connect tee_h_example tee_world_no_memory).2) ∧
    (siridb_tee_connect tee_h_example
      (siridb_tee_connect tee_h_example tee_world_no_memory).2).2.connect_attempts
      = tee_world_no_memory.connect_attempts :=
  ⟨by decide, by decide, by decide,
    C10_alloc_failure_leaves_connecting tee_h_example tee_world_no_memory (by decide)
      (by decide) (by decide)⟩

end Siri
